import Mathlib

/-!
Verification development for the vehicle-defect ingestion-and-cache pipeline
(`src/ingestion.py` and `src/database.py`).

The Python source is shallowly embedded:
* JSON payload values (`JValue`) model the Python values that appear in the
  NHTSA API responses (`None`, booleans, ints, strings, lists, dicts).
  Lists and dicts are mutual inductives so that all functions over them are
  structurally recursive and kernel-evaluable.
* Python exceptions are modelled by the `PyError` type; fallible code
  returns `Except PyError _`.
* The SQLite store is modelled by `Store`, a record of row lists; the three
  UNIQUE constraints of `database.py` are enforced by the insert operations,
  which signal a constraint violation exactly where the real engine would
  raise `IntegrityError`.
* Network fetches are parameters: a fetch is a function from the request
  arguments to `Except PyError response`.  A theorem quantified over all
  fetch functions therefore covers every fixed upstream response.
-/

mutual
/-- A Python/JSON value as it appears in a decoded NHTSA API payload.
`null` models Python `None` (a `dict.get` miss returns `None`, so a missing
key and an explicit `null` are deliberately identified, exactly as the
Python code's `is not None` tests do). -/
inductive JValue where
  | null
  | bool (b : Bool)
  | int (n : Int)
  | str (s : String)
  | arr (xs : JArray)
  | obj (kvs : JObject)
inductive JArray where
  | nil
  | cons (head : JValue) (tail : JArray)
inductive JObject where
  | nil
  | cons (key : String) (val : JValue) (tail : JObject)
end

/-- Python exceptions that the embedded code can raise. -/
inductive PyError where
  | valueError (msg : String)
  | typeError (msg : String)
  | attributeError (msg : String)
  | integrityError
  | multipleResultsFound
  | requestError (msg : String)
deriving DecidableEq

/-- Python truthiness (`bool(v)`): `None`, `False`, `0`, `""`, `[]`, `\x7b\x7d`
are falsy, everything else truthy. -/
def pyTruthy : JValue → Bool
  | .null => false
  | .bool b => b
  | .int n => n != 0
  | .str s => s != ""
  | .arr .nil => false
  | .arr (.cons _ _) => true
  | .obj .nil => false
  | .obj (.cons _ _ _) => true

mutual
/-- Python `repr` of a payload value (ASCII model; string-escape sequences
inside reprs are elided, which no claim depends on). -/
def pyReprV : JValue → String
  | .null => "None"
  | .bool true => "True"
  | .bool false => "False"
  | .int n => toString n
  | .str s => "\x27" ++ s ++ "\x27"
  | .arr xs => "[" ++ pyReprArr xs ++ "]"
  | .obj kvs => "\x7b" ++ pyReprObj kvs ++ "\x7d"
def pyReprArr : JArray → String
  | .nil => ""
  | .cons v .nil => pyReprV v
  | .cons v rest => pyReprV v ++ ", " ++ pyReprArr rest
def pyReprObj : JObject → String
  | .nil => ""
  | .cons k v .nil => "\x27" ++ k ++ "\x27: " ++ pyReprV v
  | .cons k v rest => "\x27" ++ k ++ "\x27: " ++ pyReprV v ++ ", " ++ pyReprObj rest
end

/-- Python `str(v)`: identity on strings, `repr` otherwise (for `None`,
booleans and ints `str` and `repr` agree). -/
def pyStr : JValue → String
  | .str s => s
  | v => pyReprV v

mutual
/-- `json.dumps(v)` with the default separators (escaping inside string
literals elided, which no claim depends on). -/
def jsonDumps : JValue → String
  | .null => "null"
  | .bool true => "true"
  | .bool false => "false"
  | .int n => toString n
  | .str s => "\"" ++ s ++ "\""
  | .arr xs => "[" ++ jsonDumpsArr xs ++ "]"
  | .obj kvs => "\x7b" ++ jsonDumpsObj kvs ++ "\x7d"
def jsonDumpsArr : JArray → String
  | .nil => ""
  | .cons v .nil => jsonDumps v
  | .cons v rest => jsonDumps v ++ ", " ++ jsonDumpsArr rest
def jsonDumpsObj : JObject → String
  | .nil => ""
  | .cons k v .nil => "\"" ++ k ++ "\": " ++ jsonDumps v
  | .cons k v rest => "\"" ++ k ++ "\": " ++ jsonDumps v ++ ", " ++ jsonDumpsObj rest
end

/-- Python `a or b` on payload values: `b` if `a` is falsy, else `a`. -/
def pyOr (a b : JValue) : JValue := if pyTruthy a then a else b

/-- A raw record of an API response: one JSON object, as the association
list of its key/value pairs.  `rget r k` is Python `r.get(k)`. -/
def RawRecord := List (String × JValue)

/-- Python `r.get(k)`: the value stored under `k`, or `None` when absent. -/
def rget (r : RawRecord) (k : String) : JValue :=
  match r.find? (fun kv => kv.1 == k) with
  | some kv => kv.2
  | none => JValue.null

/-- ASCII whitespace stripped by Python `str.strip()`. -/
def isPySpace (c : Char) : Bool :=
  c == ' ' || c == '\t' || c == '\n' || c == '\r' || c == '\x0b' || c == '\x0c'

/-- Python `s.strip()` (ASCII-whitespace model). -/
def pyStripString (s : String) : String :=
  ⟨(((s.data.dropWhile isPySpace).reverse).dropWhile isPySpace).reverse⟩

/-- Python `v.strip()` on a payload value: only strings have a `strip`
attribute; any other receiver raises `AttributeError`. -/
def pyStripJ (v : JValue) : Except PyError String :=
  match v with
  | .str s => .ok (pyStripString s)
  | _ => .error (.attributeError "object has no attribute strip")

/-- Python `s.upper()` for one character (ASCII model). -/
def pyUpperChar (c : Char) : Char :=
  if 97 ≤ c.toNat && c.toNat ≤ 122 then Char.ofNat (c.toNat - 32) else c

/-- Python `s.upper()` (ASCII model). -/
def pyUpper (s : String) : String := ⟨s.data.map pyUpperChar⟩

/-- Numeric value of a nonempty all-digit character list, `none` otherwise. -/
def natOfDigits (cs : List Char) : Option Nat :=
  if cs.isEmpty then none
  else if cs.all (fun c => c.isDigit) then
    some (cs.foldl (fun a c => a * 10 + (c.toNat - 48)) 0)
  else none

/-- Numeric value of an all-digit string. -/
def strToNat (s : String) : Nat :=
  s.data.foldl (fun a c => a * 10 + (c.toNat - 48)) 0

/-- Python `s.isdigit()` (ASCII model: nonempty and all decimal digits). -/
def pyIsdigit (s : String) : Bool :=
  !s.data.isEmpty && s.data.all (fun c => c.isDigit)

/-- Python `int(v)`.  Booleans and ints convert; strings convert after
stripping whitespace, with an optional sign, when the remainder is a
nonempty digit run (`ValueError` otherwise); other receivers raise
`TypeError`.  (Underscore digit separators are not modelled; no claim
depends on them.) -/
def pyInt (v : JValue) : Except PyError Int :=
  match v with
  | .bool b => .ok (if b then 1 else 0)
  | .int n => .ok n
  | .str s =>
    let parsed : Option Int :=
      match (pyStripString s).data with
      | '+' :: rest => (natOfDigits rest).map (fun n => (n : Int))
      | '-' :: rest => (natOfDigits rest).map (fun n => -(n : Int))
      | cs => (natOfDigits cs).map (fun n => (n : Int))
    match parsed with
    | some n => .ok n
    | none => .error (.valueError "invalid literal for int() with base 10")
  | .null => .error (.typeError "int() argument must not be NoneType")
  | .arr _ => .error (.typeError "int() argument must not be list")
  | .obj _ => .error (.typeError "int() argument must not be dict")

/-- A calendar date, the result of `datetime.strptime(...).date()`. -/
structure PDate where
  year : Nat
  month : Nat
  day : Nat
deriving DecidableEq

/-- Leap-year rule used by `datetime`. -/
def isLeapYear (y : Nat) : Bool :=
  y % 4 == 0 && (y % 100 != 0 || y % 400 == 0)

/-- Number of days of month `m` of year `y` (as validated by `datetime`). -/
def daysInMonth (y m : Nat) : Nat :=
  if m == 2 then (if isLeapYear y then 29 else 28)
  else if m == 4 || m == 6 || m == 9 || m == 11 then 30
  else 31

/-- The `datetime(y, m, d)` construction performed inside `strptime`:
it requires `MINYEAR ≤ y ≤ MAXYEAR` and a day that exists in the month,
raising `ValueError` (here `none`, which `_parse_date` absorbs) otherwise. -/
def mkValidDate (y m d : Nat) : Option PDate :=
  if 1 ≤ y && y ≤ 9999 && d ≤ daysInMonth y m then some ⟨y, m, d⟩ else none

/-- `strptime`'s `%Y`: exactly four digits. -/
def take4Digits : List Char → Option (Nat × List Char)
  | a :: b :: c :: d :: rest =>
    if a.isDigit && b.isDigit && c.isDigit && d.isDigit then
      some ((a.toNat - 48) * 1000 + (b.toNat - 48) * 100 + (c.toNat - 48) * 10
            + (d.toNat - 48), rest)
    else none
  | _ => none

/-- `strptime`'s `%m`: the regex `1[0-2]|0[1-9]|[1-9]`, greedily. -/
def takeMonth : List Char → Option (Nat × List Char)
  | a :: b :: rest =>
    if a == '1' && b.isDigit && b.toNat ≤ 50 then some (10 + (b.toNat - 48), rest)
    else if a == '0' && b.isDigit && 49 ≤ b.toNat then some (b.toNat - 48, rest)
    else if a.isDigit && 49 ≤ a.toNat then some (a.toNat - 48, b :: rest)
    else none
  | [a] => if a.isDigit && 49 ≤ a.toNat then some (a.toNat - 48, []) else none
  | [] => none

/-- `strptime`'s `%d`: the regex `3[01]|[12][0-9]|0[1-9]|[1-9]`, greedily. -/
def takeDay : List Char → Option (Nat × List Char)
  | a :: b :: rest =>
    if a == '3' && (b == '0' || b == '1') then some (30 + (b.toNat - 48), rest)
    else if (a == '1' || a == '2') && b.isDigit then
      some ((a.toNat - 48) * 10 + (b.toNat - 48), rest)
    else if a == '0' && b.isDigit && 49 ≤ b.toNat then some (b.toNat - 48, rest)
    else if a.isDigit && 49 ≤ a.toNat then some (a.toNat - 48, b :: rest)
    else none
  | [a] => if a.isDigit && 49 ≤ a.toNat then some (a.toNat - 48, []) else none
  | [] => none

/-- `strptime`'s `%H`: the regex `2[0-3]|[0-1][0-9]|[0-9]`, greedily. -/
def takeHour : List Char → Option (Nat × List Char)
  | a :: b :: rest =>
    if a == '2' && b.isDigit && b.toNat ≤ 51 then some (20 + (b.toNat - 48), rest)
    else if (a == '0' || a == '1') && b.isDigit then
      some ((a.toNat - 48) * 10 + (b.toNat - 48), rest)
    else if a.isDigit then some (a.toNat - 48, b :: rest)
    else none
  | [a] => if a.isDigit then some (a.toNat - 48, []) else none
  | [] => none

/-- `strptime`'s `%M` and `%S`: the regex `[0-5][0-9]|[0-9]`, greedily. -/
def takeMinSec : List Char → Option (Nat × List Char)
  | a :: b :: rest =>
    if a.isDigit && a.toNat ≤ 53 && b.isDigit then
      some ((a.toNat - 48) * 10 + (b.toNat - 48), rest)
    else if a.isDigit then some (a.toNat - 48, b :: rest)
    else none
  | [a] => if a.isDigit then some (a.toNat - 48, []) else none
  | [] => none

/-- Consume one expected literal character of the format. -/
def expectChar (c : Char) : List Char → Option (List Char)
  | x :: rest => if x == c then some rest else none
  | [] => none

/-- `datetime.strptime(s, "%Y-%m-%d").date()` (`none` models the caught
`ValueError`; the whole string must be consumed). -/
def strptimeIsoDate (s : String) : Option PDate := do
  let (y, r1) ← take4Digits s.data
  let r2 ← expectChar '-' r1
  let (m, r3) ← takeMonth r2
  let r4 ← expectChar '-' r3
  let (d, r5) ← takeDay r4
  if r5.isEmpty then mkValidDate y m d else none

/-- `datetime.strptime(s, "%m/%d/%Y").date()`. -/
def strptimeUsDate (s : String) : Option PDate := do
  let (m, r1) ← takeMonth s.data
  let r2 ← expectChar '/' r1
  let (d, r3) ← takeDay r2
  let r4 ← expectChar '/' r3
  let (y, r5) ← take4Digits r4
  if r5.isEmpty then mkValidDate y m d else none

/-- `datetime.strptime(s, "%Y-%m-%dT%H:%M:%S").date()`. -/
def strptimeIsoDatetime (s : String) : Option PDate := do
  let (y, r1) ← take4Digits s.data
  let r2 ← expectChar '-' r1
  let (m, r3) ← takeMonth r2
  let r4 ← expectChar '-' r3
  let (d, r5) ← takeDay r4
  let r6 ← expectChar 'T' r5
  let (_, r7) ← takeHour r6
  let r8 ← expectChar ':' r7
  let (_, r9) ← takeMinSec r8
  let r10 ← expectChar ':' r9
  let (_, r11) ← takeMinSec r10
  if r11.isEmpty then mkValidDate y m d else none

/-- `_parse_date` (ingestion.py lines 85-102): falsy input parses to no
date; a truthy string is tried against the three formats in order, first
match wins, no match parses to no date; `strptime` on a truthy non-string
raises `TypeError`, which the function does not catch (it only catches
`ValueError`). -/
def _parse_date (v : JValue) : Except PyError (Option PDate) :=
  if pyTruthy v then
    match v with
    | .str s =>
      match strptimeIsoDate s with
      | some d => .ok (some d)
      | none =>
        match strptimeUsDate s with
        | some d => .ok (some d)
        | none =>
          match strptimeIsoDatetime s with
          | some d => .ok (some d)
          | none => .ok none
    | _ => .error (.typeError "strptime() argument 1 must be str")
  else .ok none

example : _parse_date (.str "2021-07-04") = .ok (some ⟨2021, 7, 4⟩) := rfl
example : _parse_date (.str "7/4/2021") = .ok (some ⟨2021, 7, 4⟩) := rfl
example : _parse_date (.str "2021-07-04T12:30:00") = .ok (some ⟨2021, 7, 4⟩) := rfl
example : _parse_date (.str "2021-02-29") = .ok none := rfl
example : _parse_date (.str "garbage") = .ok none := rfl
example : _parse_date .null = .ok none := rfl
example : _parse_date (.int 0) = .ok none := rfl
example : _parse_date (.int 5) = .error (.typeError "strptime() argument 1 must be str") := rfl

/-! ### The local cache store (`database.py`)

Rows mirror the ORM models.  The surrogate autoincrement primary keys of
`complaints` and `recalls` are never read by the pipeline and are omitted;
`vehicles.id` is kept because complaints and recalls reference it. -/

/-- One row of the `vehicles` table (`database.py` lines 45-72). -/
structure VehicleRow where
  id : Nat
  make : String
  model : String
  year : Int
deriving DecidableEq

/-- One row of the `complaints` table (`database.py` lines 75-124).
Fields that the pipeline stores without conversion keep their raw payload
value. -/
structure ComplaintRow where
  vehicle_id : Nat
  odi_number : String
  manufacturer : JValue
  crash : Option Bool
  fire : Option Bool
  number_of_injuries : Option Int
  number_of_deaths : Option Int
  date_of_incident : Option PDate
  date_complaint_filed : Option PDate
  vin : JValue
  components : Option String
  summary : JValue
  products : Option String

/-- One row of the `recalls` table (`database.py` lines 127-161). -/
structure RecallRow where
  vehicle_id : Nat
  campaign_number : String
  recall_number : JValue
  report_received_date : Option PDate
  component : JValue
  summary : JValue
  consequence : JValue
  remedy : JValue
  notes : JValue

/-- The SQLite cache: the three tables plus the next `vehicles` surrogate
key.  `init_db` (idempotent `create_all`) is a no-op here since the schema
is the type itself. -/
structure Store where
  nextVehicleId : Nat
  vehicles : List VehicleRow
  complaints : List ComplaintRow
  recalls : List RecallRow

/-- The store of a freshly created database file. -/
def emptyStore : Store := ⟨1, [], [], []⟩

/-- The `session.query(Vehicle).filter(...)` of `get_or_create_vehicle`
(ingestion.py lines 150-158): exact match on uppercased make/model and
year. -/
def vehicleMatches (st : Store) (make model : String) (year : Int) : List VehicleRow :=
  st.vehicles.filter (fun v =>
    v.make == pyUpper make && v.model == pyUpper model && v.year == year)

/-- `.one_or_none()`: no row, the single row, or `MultipleResultsFound`. -/
def vehicleQuery (st : Store) (make model : String) (year : Int) :
    Except PyError (Option VehicleRow) :=
  match vehicleMatches st make model year with
  | [] => .ok none
  | [v] => .ok (some v)
  | _ :: _ :: _ => .error .multipleResultsFound

/-- Committing a new `Vehicle(make=make.upper(), model=model.upper(),
year=year)`: the UNIQUE constraint `uq_vehicle` rejects a duplicate
(make, model, year) with `IntegrityError`; otherwise the row is appended
and its id returned. -/
def vehicleInsert (st : Store) (make model : String) (year : Int) :
    Except PyError (Nat × Store) :=
  if st.vehicles.any (fun v =>
      v.make == pyUpper make && v.model == pyUpper model && v.year == year) then
    .error .integrityError
  else
    .ok (st.nextVehicleId,
         { st with nextVehicleId := st.nextVehicleId + 1,
                   vehicles := st.vehicles
                     ++ [⟨st.nextVehicleId, pyUpper make, pyUpper model, year⟩] })

/-- Committing a new `Complaint` row: the UNIQUE constraint
`uq_complaint_odi` is global on `odi_number`; `none` signals the
`IntegrityError` that `ingest_complaints` catches and rolls back. -/
def complaintInsert (st : Store) (c : ComplaintRow) : Option Store :=
  if st.complaints.any (fun x => x.odi_number == c.odi_number) then none
  else some { st with complaints := st.complaints ++ [c] }

/-- Committing a new `Recall` row: the UNIQUE constraint
`uq_vehicle_campaign` is on `(vehicle_id, campaign_number)`. -/
def recallInsert (st : Store) (r : RecallRow) : Option Store :=
  if st.recalls.any (fun x =>
      x.vehicle_id == r.vehicle_id && x.campaign_number == r.campaign_number) then none
  else some { st with recalls := st.recalls ++ [r] }

/-! ### The ingestion pipeline (`ingestion.py`) -/

/-- The tail of `get_or_create_vehicle` after the query has produced its
result (ingestion.py lines 159-166): return the found row, otherwise
create and commit.  The commit's possible `IntegrityError` is NOT caught
by the source, so it propagates.  Splitting the function at the query
boundary lets the same code model both the sequential call and the
two-caller interleaving of the vehicle-creation race. -/
def getOrCreateResume (st : Store) (make model : String) (year : Int)
    (seen : Except PyError (Option VehicleRow)) : Except PyError Nat × Store :=
  match seen with
  | .error e => (.error e, st)
  | .ok (some v) => (.ok v.id, st)
  | .ok none =>
    match vehicleInsert st make model year with
    | .error e => (.error e, st)
    | .ok (id, st') => (.ok id, st')

/-- `get_or_create_vehicle` (ingestion.py lines 141-166). -/
def get_or_create_vehicle (st : Store) (make model : String) (year : Int) :
    Except PyError Nat × Store :=
  getOrCreateResume st make model year (vehicleQuery st make model year)

/-- The two-caller race of spec §4.1 / Scenario C at the schedule where
both callers run their lookup query before either commits its insert:
caller A queries, caller B queries, A commits, then B commits. -/
def raceGetOrCreate (st : Store) (make model : String) (year : Int) :
    Except PyError Nat × Except PyError Nat × Store :=
  let seenA := vehicleQuery st make model year
  let seenB := vehicleQuery st make model year
  let (resA, st1) := getOrCreateResume st make model year seenA
  let (resB, st2) := getOrCreateResume st1 make model year seenB
  (resA, resB, st2)

/-- `", ".join(parts)`. -/
def joinComma : List String → String
  | [] => ""
  | [x] => x
  | x :: y :: rest => x ++ ", " ++ joinComma (y :: rest)

/-- The `[str(x) for x in xs if x is not None]` comprehension. -/
def arrToStrList : JArray → List String
  | .nil => []
  | .cons .null rest => arrToStrList rest
  | .cons v rest => pyStr v :: arrToStrList rest

/-- `", ".join([str(x) for x in components_val if x is not None])`. -/
def pyReprArrJoin (xs : JArray) : String :=
  joinComma (arrToStrList xs)

/-- `int(x) if x is not None else None` for a severity count field. -/
def intFieldOpt (v : JValue) : Except PyError (Option Int) :=
  match v with
  | .null => .ok none
  | v => (pyInt v).map some

/-- The complaint identity expression
`str(r.get("odiNumber") or "").strip()` (ingestion.py line 189). -/
def complaint_identifier (r : RawRecord) : String :=
  pyStripString (pyStr (pyOr (rget r "odiNumber") (JValue.str "")))

/-- The recall campaign-number expression before `.strip()`
(ingestion.py lines 250-255): the first truthy of the three key variants
`NHTSACampaignNumber`, `nhtsaCampaignNumber`, `campaignNumber`, in that
priority order, else `""`. -/
def recall_campaign_raw (r : RawRecord) : JValue :=
  pyOr (rget r "NHTSACampaignNumber")
    (pyOr (rget r "nhtsaCampaignNumber")
      (pyOr (rget r "campaignNumber") (JValue.str "")))

/-- The per-record normalization performed by the loop body of
`ingest_complaints` (ingestion.py lines 184-221): `.ok none` is the silent
skip of a record without an ODI number, `.ok (some c)` the `Complaint(...)`
row about to be committed, `.error` an uncaught exception raised while
coercing a field (evaluated in the source's order: injuries, deaths,
incident date, filed date). -/
def normalize_complaint (vid : Nat) (r : RawRecord) :
    Except PyError (Option ComplaintRow) :=
  let odi := complaint_identifier r
  if odi == "" then .ok none
  else
    let componentsStr : Option String :=
      match rget r "components" with
      | .arr xs => some (pyReprArrJoin xs)
      | .null => none
      | v => some (pyStr v)
    let productsStr : Option String :=
      match rget r "products" with
      | .arr xs => some (jsonDumps (.arr xs))
      | .obj kvs => some (jsonDumps (.obj kvs))
      | .null => none
      | v => some (pyStr v)
    let crash : Option Bool :=
      match rget r "crash" with
      | .null => none
      | v => some (pyTruthy v)
    let fire : Option Bool :=
      match rget r "fire" with
      | .null => none
      | v => some (pyTruthy v)
    match intFieldOpt (rget r "numberOfInjuries") with
    | .error e => .error e
    | .ok injuries =>
      match intFieldOpt (rget r "numberOfDeaths") with
      | .error e => .error e
      | .ok deaths =>
        match _parse_date (rget r "dateOfIncident") with
        | .error e => .error e
        | .ok dIncident =>
          match _parse_date (rget r "dateComplaintFiled") with
          | .error e => .error e
          | .ok dFiled =>
            .ok (some ⟨vid, odi, rget r "manufacturer", crash, fire,
                       injuries, deaths, dIncident, dFiled, rget r "vin",
                       componentsStr, rget r "summary", productsStr⟩)

/-- `ingest_complaints` (ingestion.py lines 169-231) over the `results`
list of the fetched complaints JSON (`complaints_json.get("results", [])`):
one commit per record, a duplicate `odi_number` raises `IntegrityError`
which is caught and rolled back (not counted), any other exception
propagates immediately. -/
def ingest_complaints (st : Store) (vid : Nat) :
    List RawRecord → Except PyError Nat × Store
  | [] => (.ok 0, st)
  | r :: rest =>
    match normalize_complaint vid r with
    | .error e => (.error e, st)
    | .ok none => ingest_complaints st vid rest
    | .ok (some c) =>
      match complaintInsert st c with
      | some st1 =>
        match ingest_complaints st1 vid rest with
        | (.ok n, st2) => (.ok (n + 1), st2)
        | (.error e, st2) => (.error e, st2)
      | none => ingest_complaints st vid rest

/-- The per-record normalization performed by the loop body of
`ingest_recalls` (ingestion.py lines 248-271): the campaign number is the
first truthy of the three key variants (else `""`), then `.strip()` — which
raises `AttributeError` on a truthy non-string; an empty campaign skips the
record; `_parse_date` can raise on a truthy non-string date. -/
def normalize_recall (vid : Nat) (r : RawRecord) :
    Except PyError (Option RecallRow) :=
  match pyStripJ (recall_campaign_raw r) with
  | .error e => .error e
  | .ok campaign =>
    if campaign == "" then .ok none
    else
      match _parse_date (pyOr (rget r "ReportReceivedDate")
                          (rget r "reportReceivedDate")) with
      | .error e => .error e
      | .ok rrd =>
        .ok (some ⟨vid, campaign,
          pyOr (rget r "RecallNumber") (rget r "ManufacturerRecallNumber"),
          rrd,
          pyOr (rget r "Component") (rget r "component"),
          pyOr (rget r "Summary") (rget r "summary"),
          pyOr (rget r "Conequence") (pyOr (rget r "Consequence") (rget r "consequence")),
          pyOr (rget r "Remedy") (rget r "remedy"),
          pyOr (rget r "Notes") (rget r "notes")⟩)

/-- `ingest_recalls` (ingestion.py lines 234-281) over the `results` list
of the fetched recalls JSON: one commit per record, a duplicate
`(vehicle_id, campaign_number)` is caught and rolled back. -/
def ingest_recalls (st : Store) (vid : Nat) :
    List RawRecord → Except PyError Nat × Store
  | [] => (.ok 0, st)
  | r :: rest =>
    match normalize_recall vid r with
    | .error e => (.error e, st)
    | .ok none => ingest_recalls st vid rest
    | .ok (some rec) =>
      match recallInsert st rec with
      | some st1 =>
        match ingest_recalls st1 vid rest with
        | (.ok n, st2) => (.ok (n + 1), st2)
        | (.error e, st2) => (.error e, st2)
      | none => ingest_recalls st vid rest

/-- An upstream fetch endpoint keyed by (make, model, modelYear): the
`results` list of the response on success, or the raised
requests/HTTP/JSON error.  A fixed `Svc` value models a fixed upstream
data source. -/
def Svc := String → String → Int → Except PyError (List RawRecord)

/-- `ingest_vehicle` (ingestion.py lines 284-310): resolve-or-create the
vehicle, fetch + insert complaints, fetch + insert recalls; any raised
error propagates (the `finally: session.close()` writes nothing).
`init_db()` is the idempotent schema creation, a no-op of this model. -/
def ingest_vehicle (make model : String) (year : Int)
    (fetchComplaints fetchRecalls : Svc) (st : Store) :
    Except PyError (Nat × Nat) × Store :=
  match get_or_create_vehicle st make model year with
  | (.error e, st1) => (.error e, st1)
  | (.ok vid, st1) =>
    match fetchComplaints make model year with
    | .error e => (.error e, st1)
    | .ok complaintsResults =>
      match ingest_complaints st1 vid complaintsResults with
      | (.error e, st2) => (.error e, st2)
      | (.ok nc, st2) =>
        match fetchRecalls make model year with
        | .error e => (.error e, st2)
        | .ok recallsResults =>
          match ingest_recalls st2 vid recallsResults with
          | (.error e, st3) => (.error e, st3)
          | (.ok nr, st3) => (.ok (nc, nr), st3)

/-- The decoded vPIC response: its `Results` list
(`data.get("Results", [])`), each result a raw record. -/
structure VpicResp where
  Results : List RawRecord

/-- The dict returned by a successful `decode_vin`. -/
structure DecodedVin where
  vin : String
  make : String
  model : String
  year : Int
deriving DecidableEq

/-- `decode_vin` (ingestion.py lines 27-64) over an abstract vPIC decode
service `svc`.  Returns `.ok none` for the `return None` decode failures,
the decoded dict on success, and propagates raised request errors or
`AttributeError`s from `.strip()` on a truthy non-string field. -/
def decode_vin (vin : String) (svc : String → Except PyError VpicResp) :
    Except PyError (Option DecodedVin) :=
  let v := pyUpper (pyStripString vin)
  if v.length != 17 then .ok none
  else
    match svc v with
    | .error e => .error e
    | .ok data =>
      match data.Results with
      | [] => .ok none
      | r :: _ =>
        match pyStripJ (pyOr (rget r "Make") (JValue.str "")) with
        | .error e => .error e
        | .ok make =>
          match pyStripJ (pyOr (rget r "Model") (JValue.str "")) with
          | .error e => .error e
          | .ok model =>
            match pyStripJ (pyOr (rget r "ModelYear") (JValue.str "")) with
            | .error e => .error e
            | .ok year =>
              if make != "" && model != "" && pyIsdigit year then
                .ok (some ⟨v, make, model, (strToNat year : Int)⟩)
              else .ok none

/-- `ingest_vin` (ingestion.py lines 67-82): decode, raise a descriptive
`ValueError` on a falsy decode result, otherwise delegate to
`ingest_vehicle` and return the decoded dict with both counts. -/
def ingest_vin (vin : String) (vinSvc : String → Except PyError VpicResp)
    (fetchComplaints fetchRecalls : Svc) (st : Store) :
    Except PyError (DecodedVin × Nat × Nat) × Store :=
  match decode_vin vin vinSvc with
  | .error e => (.error e, st)
  | .ok none =>
    (.error (.valueError "Could not decode VIN (check VIN and try again)."), st)
  | .ok (some d) =>
    match ingest_vehicle d.make d.model d.year fetchComplaints fetchRecalls st with
    | (.error e, st1) => (.error e, st1)
    | (.ok (nc, nr), st1) => (.ok (d, nc, nr), st1)

example :
    normalize_complaint 1 [("odiNumber", .int 11000001), ("crash", .bool true),
      ("numberOfInjuries", .int 2), ("dateOfIncident", .str "2021-07-04")]
    = .ok (some ⟨1, "11000001", .null, some true, none, some 2, none,
                 some ⟨2021, 7, 4⟩, none, .null, none, .null, none⟩) := rfl

example :
    ingest_vehicle "Honda" "Accord" 2021
      (fun _ _ _ => .ok [[("odiNumber", .str "123")]])
      (fun _ _ _ => .ok [[("NHTSACampaignNumber", .str "21V100000")]])
      emptyStore
    = (.ok (1, 1),
       ⟨2, [⟨1, "HONDA", "ACCORD", 2021⟩],
        [⟨1, "123", .null, none, none, none, none, none, none, .null, none, .null, none⟩],
        [⟨1, "21V100000", .null, none, .null, .null, .null, .null, .null⟩]⟩) := rfl

/-! ### Statement-level predicates and fixtures -/

/-- A payload value that is either a string or falsy: exactly the receivers
on which `(v or "").strip()` cannot raise. -/
def StrOrFalsy (v : JValue) : Prop :=
  (∃ s, v = JValue.str s) ∨ pyTruthy v = false

/-- A payload value accepted by `int(x) if x is not None else None`:
absent, or a value `int()` converts. -/
def IntCoercible (v : JValue) : Prop :=
  v = JValue.null ∨ ∃ n, pyInt v = Except.ok n

/-- The value of `(v or "").strip()` on a string-or-falsy receiver. -/
def stripOrEmpty (v : JValue) : String :=
  match v with
  | .str s => pyStripString s
  | _ => ""

/-- Modelled from the spec: a "valid positive integer string" — a decimal
digit string whose value is positive.  Used only to compare the spec's
stated decode-failure condition with the code's `year.isdigit()` test. -/
def specPositiveIntegerString (s : String) : Prop :=
  pyIsdigit s = true ∧ 0 < strToNat s

/-- The cache states reachable from a fresh database by any sequence of
ingestion operations, under arbitrary inputs and arbitrary upstream
responses (including failing ones, which leave partial state). -/
inductive ReachableStore : Store → Prop where
  | init : ReachableStore emptyStore
  | step (st : Store) (make model : String) (year : Int) (fC fR : Svc) :
      ReachableStore st →
      ReachableStore (ingest_vehicle make model year fC fR st).2

/-- No two vehicle rows share the same (uppercased make, uppercased model,
year) triple. -/
def VehicleIdentityUnique (st : Store) : Prop :=
  st.vehicles.Pairwise (fun a b =>
    ¬(pyUpper a.make = pyUpper b.make ∧ pyUpper a.model = pyUpper b.model
      ∧ a.year = b.year))

/-- No two complaint rows anywhere in the store share an `odi_number`. -/
def ComplaintIdentityUnique (st : Store) : Prop :=
  st.complaints.Pairwise (fun a b => a.odi_number ≠ b.odi_number)

/-- No two recall rows of the same vehicle share a `campaign_number`. -/
def RecallIdentityUnique (st : Store) : Prop :=
  st.recalls.Pairwise (fun a b =>
    ¬(a.vehicle_id = b.vehicle_id ∧ a.campaign_number = b.campaign_number))

/-- Induction-strength store invariant: stored vehicle triples are pairwise
distinct as stored, and stored make/model are uppercase-normalized. -/
def StoreInv (st : Store) : Prop :=
  st.vehicles.Pairwise (fun a b =>
    ¬(a.make = b.make ∧ a.model = b.model ∧ a.year = b.year))
  ∧ (∀ v ∈ st.vehicles, pyUpper v.make = v.make ∧ pyUpper v.model = v.model)
  ∧ ComplaintIdentityUnique st ∧ RecallIdentityUnique st

/-- Fixture: a fixed upstream complaints response of two records. -/
def wFc : Svc := fun _ _ _ =>
  .ok [[("odiNumber", .str "123")], [("odiNumber", .str "456")]]

/-- Fixture: a fixed upstream recalls response of one record. -/
def wFr : Svc := fun _ _ _ => .ok [[("campaignNumber", .str "21V1")]]

/-- Fixture: a complaints/recalls endpoint that fails with a timeout. -/
def wFrErr : Svc := fun _ _ _ => .error (.requestError "timeout")

/-- Fixture: a vPIC decode service whose first result carries
`ModelYear = "0"`. -/
def vpicYearZero : String → Except PyError VpicResp := fun _ =>
  .ok ⟨[[("Make", .str "HONDA"), ("Model", .str "ACCORD"),
        ("ModelYear", .str "0")]]⟩

/-! ### Helper lemmas -/

theorem toNat_ofNat_valid (k : Nat) (h : k < 55296) : (Char.ofNat k).toNat = k := by
  simp only [Char.ofNat, Nat.isValidChar]
  rw [dif_pos (Or.inl h)]
  simp [Char.ofNatAux, Char.toNat, UInt32.toNat, BitVec.toNat_ofNatLt]

theorem pyUpperChar_idem (c : Char) : pyUpperChar (pyUpperChar c) = pyUpperChar c := by
  by_cases h : (97 ≤ c.toNat && c.toNat ≤ 122) = true
  · have h' : pyUpperChar c = Char.ofNat (c.toNat - 32) := by
      simp only [pyUpperChar, if_pos h]
    simp only [Bool.and_eq_true, decide_eq_true_eq] at h
    have h2 : (Char.ofNat (c.toNat - 32)).toNat = c.toNat - 32 :=
      toNat_ofNat_valid _ (by omega)
    rw [h']
    simp only [pyUpperChar, h2]
    rw [if_neg (by simp; omega)]
  · have h' : pyUpperChar c = c := by simp only [pyUpperChar, if_neg h]
    rw [h', h']

theorem pyUpper_idem (s : String) : pyUpper (pyUpper s) = pyUpper s := by
  simp only [pyUpper, List.map_map]
  congr 1
  apply List.map_congr_left
  intro c _
  exact pyUpperChar_idem c

theorem parse_date_ok_of_strOrFalsy (v : JValue) (h : StrOrFalsy v) :
    ∃ o, _parse_date v = .ok o := by
  rcases h with ⟨s, rfl⟩ | h
  · unfold _parse_date
    split
    · repeat' split
      all_goals exact ⟨_, rfl⟩
    · exact ⟨none, rfl⟩
  · unfold _parse_date
    rw [if_neg (by simp [h])]
    exact ⟨none, rfl⟩

theorem pyStripJ_pyOr_default (v : JValue) (h : StrOrFalsy v) :
    pyStripJ (pyOr v (JValue.str "")) = .ok (stripOrEmpty v) := by
  rcases h with ⟨s, rfl⟩ | h
  · by_cases hs : s = ""
    · subst hs; rfl
    · have ht : pyTruthy (JValue.str s) = true := by simp [pyTruthy, hs]
      simp [pyOr, ht, pyStripJ, stripOrEmpty]
  · cases v <;> simp_all [pyTruthy, pyOr, pyStripJ, stripOrEmpty] <;> rfl

theorem intFieldOpt_ok_of_intCoercible (v : JValue) (h : IntCoercible v) :
    ∃ o, intFieldOpt v = .ok o := by
  rcases h with rfl | ⟨n, hn⟩
  · exact ⟨none, rfl⟩
  · cases v
    · exact ⟨none, rfl⟩
    all_goals (refine ⟨some n, ?_⟩; simp only [intFieldOpt, hn]; rfl)

/-! ### Claim theorems -/

/-- C4: the code does not satisfy the claim.  At the racy schedule where
two concurrent callers both run the lookup query for a previously absent
(make, model, year) triple before either commits, the first caller creates
the row, but the losing caller's commit raises `IntegrityError`
(`get_or_create_vehicle` has no handler around its create-and-commit), so
the losing invocation fails instead of resolving to the surviving row.
The store does end with exactly one Vehicle row for the triple. -/
theorem vehicle_create_race_loser_raises :
    (raceGetOrCreate emptyStore "HONDA" "ACCORD" 2021).1 = .ok 1
    ∧ (raceGetOrCreate emptyStore "HONDA" "ACCORD" 2021).2.1
        = .error .integrityError
    ∧ (raceGetOrCreate emptyStore "HONDA" "ACCORD" 2021).2.2.vehicles
        = [⟨1, "HONDA", "ACCORD", 2021⟩] :=
  ⟨rfl, rfl, rfl⟩

/-- C5 counterexample: with the first decode result carrying
`ModelYear = "0"`, `decode_vin` returns a decoded result with year 0 even
though "0" is not a valid positive integer string, refuting the claim that
a decode failure occurs exactly when (among the other conditions) the
model-year is not a valid positive integer string — the code's test is
`isdigit`, which accepts "0". -/
theorem decode_vin_accepts_year_zero :
    decode_vin "1HGCM82633A004352" vpicYearZero
      = .ok (some ⟨"1HGCM82633A004352", "HONDA", "ACCORD", 0⟩)
    ∧ ¬ specPositiveIntegerString "0" := by
  refine ⟨rfl, ?_⟩
  rintro ⟨-, h⟩
  revert h
  decide

/-- C6: `ingest_vin` decodes first; a falsy decode result raises the
descriptive `ValueError` with the store untouched and the result
independent of (hence without invoking) the complaints/recalls endpoints;
a raised decode error propagates the same way; a successful decode
delegates entirely to `ingest_vehicle` on the decoded triple, returning
the decoded dict together with the two insertion counts. -/
theorem ingest_vin_composition :
    (∀ vin dsvc fC fR st, decode_vin vin dsvc = .ok none →
       ingest_vin vin dsvc fC fR st =
         (.error (.valueError "Could not decode VIN (check VIN and try again)."), st))
  ∧ (∀ vin dsvc fC fR st e, decode_vin vin dsvc = .error e →
       ingest_vin vin dsvc fC fR st = (.error e, st))
  ∧ (∀ vin dsvc fC fR st d, decode_vin vin dsvc = .ok (some d) →
       ingest_vin vin dsvc fC fR st =
         (match ingest_vehicle d.make d.model d.year fC fR st with
          | (.error e, st1) => (.error e, st1)
          | (.ok p, st1) => (.ok (d, p.1, p.2), st1))) := by
  refine ⟨?_, ?_, ?_⟩
  · intro vin dsvc fC fR st h
    unfold ingest_vin
    rw [h]
  · intro vin dsvc fC fR st e h
    unfold ingest_vin
    rw [h]
  · intro vin dsvc fC fR st d h
    unfold ingest_vin
    simp only [h]
    cases hiv : ingest_vehicle d.make d.model d.year fC fR st with
    | mk res st1 =>
      cases res with
      | error e => rfl
      | ok p =>
        obtain ⟨nc, nr⟩ := p
        rfl

/-- C6 witness: a 5-character VIN decodes to a falsy result for the
`vpicYearZero` service, so `ingest_vin` fails with the descriptive error
and leaves the fresh store unchanged. -/
theorem ingest_vin_composition_witness :
    ingest_vin "SHORT" vpicYearZero wFc wFr emptyStore =
      (.error (.valueError "Could not decode VIN (check VIN and try again)."),
       emptyStore) :=
  ingest_vin_composition.1 "SHORT" vpicYearZero wFc wFr emptyStore rfl

/-- C9: a raw complaint record whose `odiNumber` value is the integer 0,
the boolean false, or a string that is empty after stripping is silently
dropped by complaint ingestion exactly as if the identifier were absent
(the identifier is read through the `or ""` truthiness fallback before
`str()`), leaving both the store and the insertion count unchanged. -/
theorem complaint_falsy_identifier_dropped
    (st : Store) (vid : Nat) (r : RawRecord) (rest : List RawRecord)
    (h : rget r "odiNumber" = JValue.int 0
       ∨ rget r "odiNumber" = JValue.bool false
       ∨ ∃ s, rget r "odiNumber" = JValue.str s ∧ pyStripString s = "") :
    ingest_complaints st vid (r :: rest) = ingest_complaints st vid rest := by
  have hodi : complaint_identifier r = "" := by
    unfold complaint_identifier
    rcases h with h | h | ⟨s, h, hs⟩
    · rw [h]; rfl
    · rw [h]; rfl
    · rw [h]
      by_cases he : s = ""
      · subst he; rfl
      · have ht : pyTruthy (JValue.str s) = true := by simp [pyTruthy, he]
        simp only [pyOr, ht, if_true, pyStr]
        exact hs
  have hnorm : normalize_complaint vid r = .ok none := by
    unfold normalize_complaint
    rw [hodi]
    rfl
  simp only [ingest_complaints]
  rw [hnorm]

/-- C9 witness: a record with `odiNumber = 0` is dropped. -/
theorem complaint_falsy_identifier_dropped_witness :
    ingest_complaints emptyStore 1 [[("odiNumber", JValue.int 0)]]
      = ingest_complaints emptyStore 1 [] :=
  complaint_falsy_identifier_dropped emptyStore 1
    [("odiNumber", JValue.int 0)] [] (Or.inl rfl)

/-- C10: `ingest` commits the resolved-or-created Vehicle row before any
fetch, so when the complaints fetch fails on a previously absent triple,
the call returns the raised error and the store nevertheless contains the
newly created Vehicle row: a failed ingest on a new triple is not free of
state change. -/
theorem complaints_fetch_failure_persists_vehicle
    (mk md : String) (yr : Int) (fC fR : Svc) (st : Store) (e : PyError)
    (habsent : vehicleMatches st mk md yr = [])
    (hfc : fC mk md yr = .error e) :
    ingest_vehicle mk md yr fC fR st =
      (.error e,
       { st with nextVehicleId := st.nextVehicleId + 1,
                 vehicles := st.vehicles
                   ++ [⟨st.nextVehicleId, pyUpper mk, pyUpper md, yr⟩] }) := by
  have hq : vehicleQuery st mk md yr = .ok none := by
    unfold vehicleQuery
    rw [habsent]
  have hany : st.vehicles.any (fun v =>
      v.make == pyUpper mk && v.model == pyUpper md && v.year == yr) = false := by
    rw [List.any_eq_false]
    intro x hx
    exact List.filter_eq_nil_iff.mp habsent x hx
  have hins : vehicleInsert st mk md yr =
      .ok (st.nextVehicleId,
           { st with nextVehicleId := st.nextVehicleId + 1,
                     vehicles := st.vehicles
                       ++ [⟨st.nextVehicleId, pyUpper mk, pyUpper md, yr⟩] }) := by
    unfold vehicleInsert
    rw [hany]
    rfl
  unfold ingest_vehicle get_or_create_vehicle getOrCreateResume
  simp only [hq, hins, hfc]

/-- C10 witness: on a fresh store, ingesting a new triple whose complaints
fetch times out raises the error yet persists the Vehicle row. -/
theorem complaints_fetch_failure_persists_vehicle_witness :
    ingest_vehicle "Honda" "Accord" 2021 wFrErr wFr emptyStore =
      (.error (.requestError "timeout"),
       { emptyStore with nextVehicleId := 2,
                         vehicles := [⟨1, pyUpper "Honda", pyUpper "Accord", 2021⟩] }) :=
  complaints_fetch_failure_persists_vehicle "Honda" "Accord" 2021 wFrErr wFr
    emptyStore (.requestError "timeout") rfl rfl

/-- C7: when the recalls fetch fails after the complaints phase completed,
the error propagates to the caller and the final store is exactly the
store left by the complaints phase — every complaint row committed earlier
in the same invocation is still present (per-record commits are not rolled
back). -/
theorem recalls_fetch_failure_preserves_complaints
    (mk md : String) (yr : Int) (fC fR : Svc) (st : Store) (e : PyError)
    (vid : Nat) (st1 : Store) (crs : List RawRecord) (n : Nat) (st2 : Store)
    (hgoc : get_or_create_vehicle st mk md yr = (.ok vid, st1))
    (hfc : fC mk md yr = .ok crs)
    (hic : ingest_complaints st1 vid crs = (.ok n, st2))
    (hfr : fR mk md yr = .error e) :
    ingest_vehicle mk md yr fC fR st = (.error e, st2)
    ∧ ∀ c ∈ st2.complaints,
        c ∈ (ingest_vehicle mk md yr fC fR st).2.complaints := by
  have hmain : ingest_vehicle mk md yr fC fR st = (.error e, st2) := by
    unfold ingest_vehicle
    simp only [hgoc, hfc, hic, hfr]
  refine ⟨hmain, fun c hc => ?_⟩
  rw [hmain]
  exact hc

/-- C7 witness: one complaint commits, then the recalls fetch times out;
the call errors and the committed complaint row is still in the store. -/
theorem recalls_fetch_failure_preserves_complaints_witness :
    ingest_vehicle "Honda" "Accord" 2021 wFc wFrErr emptyStore =
      (.error (.requestError "timeout"),
       ⟨2, [⟨1, "HONDA", "ACCORD", 2021⟩],
        [⟨1, "123", .null, none, none, none, none, none, none, .null, none, .null, none⟩,
         ⟨1, "456", .null, none, none, none, none, none, none, .null, none, .null, none⟩],
        []⟩) :=
  (recalls_fetch_failure_preserves_complaints "Honda" "Accord" 2021 wFc wFrErr
    emptyStore (.requestError "timeout") 1
    ⟨2, [⟨1, "HONDA", "ACCORD", 2021⟩], [], []⟩
    [[("odiNumber", .str "123")], [("odiNumber", .str "456")]] 2
    ⟨2, [⟨1, "HONDA", "ACCORD", 2021⟩],
     [⟨1, "123", .null, none, none, none, none, none, none, .null, none, .null, none⟩,
      ⟨1, "456", .null, none, none, none, none, none, none, .null, none, .null, none⟩],
     []⟩
    rfl rfl rfl rfl).1

theorem strOrFalsy_pyOr (a b : JValue) (ha : StrOrFalsy a) (hb : StrOrFalsy b) :
    StrOrFalsy (pyOr a b) := by
  unfold pyOr
  by_cases ht : pyTruthy a = true
  · rw [if_pos ht]; exact ha
  · rw [if_neg ht]; exact hb

theorem pyOr_eq_str (a b : JValue) (ha : StrOrFalsy a) (hb : ∃ s, b = JValue.str s) :
    ∃ s, pyOr a b = JValue.str s := by
  unfold pyOr
  by_cases ht : pyTruthy a = true
  · rw [if_pos ht]
    rcases ha with ⟨s, rfl⟩ | hf
    · exact ⟨s, rfl⟩
    · rw [hf] at ht; cases ht
  · rw [if_neg ht]; exact hb

theorem recall_campaign_raw_str (r : RawRecord)
    (h1 : StrOrFalsy (rget r "NHTSACampaignNumber"))
    (h2 : StrOrFalsy (rget r "nhtsaCampaignNumber"))
    (h3 : StrOrFalsy (rget r "campaignNumber")) :
    ∃ s, recall_campaign_raw r = JValue.str s :=
  pyOr_eq_str _ _ h1 (pyOr_eq_str _ _ h2 (pyOr_eq_str _ _ h3 ⟨"", rfl⟩))

/-- C8: the campaign number is resolved by trying the key variants
`NHTSACampaignNumber`, `nhtsaCampaignNumber`, `campaignNumber` in that
fixed priority order, first truthy match wins: a record exposing the
campaign number only under the least-preferred variant is still normalized
with the correct (stripped) campaign value, and a record for which no
variant yields a non-empty value is skipped entirely — no error, no count
change, no store change. -/
theorem recall_campaign_variant_resolution :
    (∀ vid r c,
       pyTruthy (rget r "NHTSACampaignNumber") = false →
       pyTruthy (rget r "nhtsaCampaignNumber") = false →
       rget r "campaignNumber" = JValue.str c →
       pyStripString c ≠ "" →
       StrOrFalsy (rget r "ReportReceivedDate") →
       StrOrFalsy (rget r "reportReceivedDate") →
       ∃ rec, normalize_recall vid r = .ok (some rec)
         ∧ rec.campaign_number = pyStripString c)
  ∧ (∀ st vid r rest,
       pyTruthy (rget r "NHTSACampaignNumber") = false →
       pyTruthy (rget r "nhtsaCampaignNumber") = false →
       pyTruthy (rget r "campaignNumber") = false →
       ingest_recalls st vid (r :: rest) = ingest_recalls st vid rest) := by
  constructor
  · intro vid r c h1 h2 h3 hne hd1 hd2
    have hc_ne : c ≠ "" := fun he => hne (by rw [he]; rfl)
    have hchain : recall_campaign_raw r = JValue.str c := by
      have htc : pyTruthy (JValue.str c) = true := by simp [pyTruthy, hc_ne]
      unfold recall_campaign_raw
      rw [h3]
      simp [pyOr, h1, h2, htc]
    have hbeq : (pyStripString c == "") = false := by
      simp [hne]
    obtain ⟨o, hdate⟩ :=
      parse_date_ok_of_strOrFalsy _ (strOrFalsy_pyOr _ _ hd1 hd2)
    have hnorm : normalize_recall vid r = .ok (some ⟨vid, pyStripString c,
        pyOr (rget r "RecallNumber") (rget r "ManufacturerRecallNumber"), o,
        pyOr (rget r "Component") (rget r "component"),
        pyOr (rget r "Summary") (rget r "summary"),
        pyOr (rget r "Conequence") (pyOr (rget r "Consequence") (rget r "consequence")),
        pyOr (rget r "Remedy") (rget r "remedy"),
        pyOr (rget r "Notes") (rget r "notes")⟩) := by
      unfold normalize_recall
      rw [hchain]
      simp only [pyStripJ, hbeq, hdate, Bool.false_eq_true, if_false]
    exact ⟨_, hnorm, rfl⟩
  · intro st vid r rest h1 h2 h3
    have hchain : recall_campaign_raw r = JValue.str "" := by
      unfold recall_campaign_raw
      simp [pyOr, h1, h2, h3]
    have hnorm : normalize_recall vid r = .ok none := by
      unfold normalize_recall
      rw [hchain]
      rfl
    simp only [ingest_recalls]
    rw [hnorm]

/-- C8 witness: a record exposing the campaign only as `campaignNumber`
normalizes to the stripped campaign value; a record whose only variant is
empty is skipped. -/
theorem recall_campaign_variant_resolution_witness :
    (∃ rec, normalize_recall 1 [("campaignNumber", JValue.str " 21V9 ")]
        = .ok (some rec) ∧ rec.campaign_number = pyStripString " 21V9 ")
    ∧ ingest_recalls emptyStore 1 [[("NHTSACampaignNumber", JValue.str "")]]
        = ingest_recalls emptyStore 1 [] :=
  ⟨recall_campaign_variant_resolution.1 1 [("campaignNumber", JValue.str " 21V9 ")]
      " 21V9 " rfl rfl rfl (by decide) (Or.inr rfl) (Or.inr rfl),
   recall_campaign_variant_resolution.2 emptyStore 1
      [("NHTSACampaignNumber", JValue.str "")] [] rfl rfl rfl⟩

/-- C3 counterexample: a raw complaint whose identity field is present and
valid but whose optional `numberOfInjuries` field holds the string `""`
makes normalization raise `ValueError` from `int("")` (ingestion.py line
213), which propagates out of `ingest_complaints` — refuting the claim
that normalization never raises on account of a malformed optional field.
-/
theorem normalize_complaint_raises_on_bad_count :
    ingest_complaints emptyStore 1
      [[("odiNumber", JValue.str "100"), ("numberOfInjuries", JValue.str "")]]
      = (.error (.valueError "invalid literal for int() with base 10"),
         emptyStore) := rfl

/-- C3 (amended): provided the injury/death counts are absent or values
`int()` accepts, and the date fields (and for recalls also the three
campaign key variants) are strings or falsy, normalization never raises:
it yields a canonical record or silently drops the whole record, and a
drop occurs exactly when the record's identity field is unrecoverable
(empty after the truthiness fallback and strip).  Without those provisos
the code can raise (see the counterexample). -/
theorem normalization_total_on_benign_fields :
    (∀ vid r,
       IntCoercible (rget r "numberOfInjuries") →
       IntCoercible (rget r "numberOfDeaths") →
       StrOrFalsy (rget r "dateOfIncident") →
       StrOrFalsy (rget r "dateComplaintFiled") →
       ∃ res, normalize_complaint vid r = .ok res
         ∧ (res = none ↔ complaint_identifier r = ""))
  ∧ (∀ vid r,
       StrOrFalsy (rget r "NHTSACampaignNumber") →
       StrOrFalsy (rget r "nhtsaCampaignNumber") →
       StrOrFalsy (rget r "campaignNumber") →
       StrOrFalsy (rget r "ReportReceivedDate") →
       StrOrFalsy (rget r "reportReceivedDate") →
       ∃ res, normalize_recall vid r = .ok res
         ∧ (res = none ↔ stripOrEmpty (recall_campaign_raw r) = "")) := by
  constructor
  · intro vid r hinj hdea hd1 hd2
    by_cases hid : complaint_identifier r = ""
    · refine ⟨none, ?_, by simp [hid]⟩
      unfold normalize_complaint
      rw [hid]
      rfl
    · obtain ⟨o1, h1⟩ := intFieldOpt_ok_of_intCoercible _ hinj
      obtain ⟨o2, h2⟩ := intFieldOpt_ok_of_intCoercible _ hdea
      obtain ⟨o3, h3⟩ := parse_date_ok_of_strOrFalsy _ hd1
      obtain ⟨o4, h4⟩ := parse_date_ok_of_strOrFalsy _ hd2
      have hbeq : (complaint_identifier r == "") = false := by simp [hid]
      suffices h : ∃ row, normalize_complaint vid r = .ok (some row) by
        obtain ⟨row, hrow⟩ := h
        exact ⟨some row, hrow, by simp [hid]⟩
      simp only [normalize_complaint, hbeq, Bool.false_eq_true, if_false,
                 h1, h2, h3, h4]
      exact ⟨_, rfl⟩
  · intro vid r h1 h2 h3 hd1 hd2
    obtain ⟨cs, hchain⟩ := recall_campaign_raw_str r h1 h2 h3
    have hstrip : stripOrEmpty (recall_campaign_raw r) = pyStripString cs := by
      rw [hchain]
      rfl
    by_cases hc : pyStripString cs = ""
    · refine ⟨none, ?_, by simp [hstrip, hc]⟩
      unfold normalize_recall
      rw [hchain]
      simp only [pyStripJ]
      rw [hc]
      rfl
    · obtain ⟨o, hdate⟩ :=
        parse_date_ok_of_strOrFalsy _ (strOrFalsy_pyOr _ _ hd1 hd2)
      have hbeq : (pyStripString cs == "") = false := by simp [hc]
      suffices h : ∃ row, normalize_recall vid r = .ok (some row) by
        obtain ⟨row, hrow⟩ := h
        exact ⟨some row, hrow, by simp [hstrip, hc]⟩
      unfold normalize_recall
      rw [hchain]
      simp only [pyStripJ, hbeq, Bool.false_eq_true, if_false, hdate]
      exact ⟨_, rfl⟩

/-- C3 witness: a benign record with a valid identifier normalizes to a
row, and the empty raw record normalizes to a silent drop. -/
theorem normalization_total_on_benign_fields_witness :
    (∃ res, normalize_complaint 7 [("odiNumber", JValue.str "500")] = .ok res
       ∧ (res = none ↔ complaint_identifier [("odiNumber", JValue.str "500")] = ""))
    ∧ (∃ res, normalize_recall 7 ([] : RawRecord) = .ok res
       ∧ (res = none ↔ stripOrEmpty (recall_campaign_raw ([] : RawRecord)) = "")) :=
  ⟨normalization_total_on_benign_fields.1 7 [("odiNumber", JValue.str "500")]
     (Or.inl rfl) (Or.inl rfl) (Or.inr rfl) (Or.inr rfl),
   normalization_total_on_benign_fields.2 7 ([] : RawRecord)
     (Or.inr rfl) (Or.inr rfl) (Or.inr rfl) (Or.inr rfl) (Or.inr rfl)⟩

/-- C5 (amended): `decode_vin` yields no decoded result exactly when the
trimmed upper-cased input's length is not 17 (then the result is `.ok
none` for EVERY service — no network call), or the service call errors
(the raised error propagates), or the service returns no results, or the
first result's make or model is empty after trimming, or its model-year
fails `isdigit` — a nonempty decimal-digit string test, which (unlike the
claim's "valid positive integer string") also accepts "0" and zero-padded
strings; otherwise it returns the trimmed upper-cased VIN together with
the trimmed make, trimmed model, and the integer value of the model-year.
-/
theorem decode_vin_outcome_characterization :
    (∀ vin svc, (pyUpper (pyStripString vin)).length ≠ 17 →
       decode_vin vin svc = .ok none)
  ∧ (∀ vin svc e, (pyUpper (pyStripString vin)).length = 17 →
       svc (pyUpper (pyStripString vin)) = .error e →
       decode_vin vin svc = .error e)
  ∧ (∀ vin svc data, (pyUpper (pyStripString vin)).length = 17 →
       svc (pyUpper (pyStripString vin)) = .ok data →
       data.Results = [] →
       decode_vin vin svc = .ok none)
  ∧ (∀ vin svc data r rs, (pyUpper (pyStripString vin)).length = 17 →
       svc (pyUpper (pyStripString vin)) = .ok data →
       data.Results = r :: rs →
       StrOrFalsy (rget r "Make") →
       StrOrFalsy (rget r "Model") →
       StrOrFalsy (rget r "ModelYear") →
       decode_vin vin svc =
         if stripOrEmpty (rget r "Make") ≠ "" ∧ stripOrEmpty (rget r "Model") ≠ ""
            ∧ pyIsdigit (stripOrEmpty (rget r "ModelYear")) = true then
           .ok (some ⟨pyUpper (pyStripString vin), stripOrEmpty (rget r "Make"),
                      stripOrEmpty (rget r "Model"),
                      (strToNat (stripOrEmpty (rget r "ModelYear")) : Int)⟩)
         else .ok none) := by
  refine ⟨?_, ?_, ?_, ?_⟩
  · intro vin svc h
    simp only [decode_vin]
    rw [if_pos (by simpa [bne_iff_ne] using h)]
  · intro vin svc e hlen hsvc
    simp only [decode_vin]
    rw [if_neg (by simp [bne_iff_ne, hlen])]
    rw [hsvc]
  · intro vin svc data hlen hsvc hres
    simp only [decode_vin]
    rw [if_neg (by simp [bne_iff_ne, hlen])]
    simp only [hsvc, hres]
  · intro vin svc data r rs hlen hsvc hres hMake hModel hYear
    have hm := pyStripJ_pyOr_default _ hMake
    have hmo := pyStripJ_pyOr_default _ hModel
    have hy := pyStripJ_pyOr_default _ hYear
    simp only [decode_vin]
    rw [if_neg (by simp [bne_iff_ne, hlen])]
    simp only [hsvc, hres, hm, hmo, hy, Bool.and_eq_true, bne_iff_ne]
    simp [and_assoc]

/-- C5 witness for the amended characterization: a short input is rejected
without consulting the service, and a 17-character VIN against the
concrete fixture decodes per the characterization. -/
theorem decode_vin_outcome_characterization_witness :
    decode_vin "abc" vpicYearZero = .ok none
    ∧ decode_vin "1HGCM82633A004352" vpicYearZero =
        (if stripOrEmpty (rget [("Make", .str "HONDA"), ("Model", .str "ACCORD"),
              ("ModelYear", .str "0")] "Make") ≠ ""
            ∧ stripOrEmpty (rget [("Make", .str "HONDA"), ("Model", .str "ACCORD"),
              ("ModelYear", .str "0")] "Model") ≠ ""
            ∧ pyIsdigit (stripOrEmpty (rget [("Make", .str "HONDA"),
              ("Model", .str "ACCORD"), ("ModelYear", .str "0")] "ModelYear")) = true then
           .ok (some ⟨pyUpper (pyStripString "1HGCM82633A004352"),
                stripOrEmpty (rget [("Make", .str "HONDA"), ("Model", .str "ACCORD"),
                  ("ModelYear", .str "0")] "Make"),
                stripOrEmpty (rget [("Make", .str "HONDA"), ("Model", .str "ACCORD"),
                  ("ModelYear", .str "0")] "Model"),
                (strToNat (stripOrEmpty (rget [("Make", .str "HONDA"),
                  ("Model", .str "ACCORD"), ("ModelYear", .str "0")] "ModelYear")) : Int)⟩)
         else .ok none) :=
  ⟨decode_vin_outcome_characterization.1 "abc" vpicYearZero (by decide),
   decode_vin_outcome_characterization.2.2.2 "1HGCM82633A004352" vpicYearZero
     ⟨[[("Make", .str "HONDA"), ("Model", .str "ACCORD"), ("ModelYear", .str "0")]]⟩
     [("Make", .str "HONDA"), ("Model", .str "ACCORD"), ("ModelYear", .str "0")] []
     (by decide) rfl rfl (Or.inl ⟨"HONDA", rfl⟩) (Or.inl ⟨"ACCORD", rfl⟩)
     (Or.inl ⟨"0", rfl⟩)⟩

theorem ingest_complaints_shape (vid : Nat) (rs : List RawRecord) :
    ∀ st, ∃ l, (ingest_complaints st vid rs).2 =
      { st with complaints := st.complaints ++ l } := by
  induction rs with
  | nil =>
    intro st
    exact ⟨[], by simp [ingest_complaints]⟩
  | cons r rest ih =>
    intro st
    simp only [ingest_complaints]
    cases hn : normalize_complaint vid r with
    | error e => exact ⟨[], by simp⟩
    | ok o =>
      cases o with
      | none => simpa using ih st
      | some c =>
        cases hins : complaintInsert st c with
        | none => simpa [hins] using ih st
        | some st1 =>
          have hst1 : st1 = { st with complaints := st.complaints ++ [c] } := by
            unfold complaintInsert at hins
            by_cases hc : (st.complaints.any fun x => x.odi_number == c.odi_number) = true
            · rw [if_pos hc] at hins; cases hins
            · rw [if_neg hc] at hins; exact (Option.some.inj hins).symm
          obtain ⟨l, hl⟩ := ih st1
          refine ⟨c :: l, ?_⟩
          cases hrec : ingest_complaints st1 vid rest with
          | mk res st2 =>
            have hst2 : st2 = { st1 with complaints := st1.complaints ++ l } := by
              rw [hrec] at hl; exact hl
            have hfin : st2 = { st with complaints := st.complaints ++ (c :: l) } := by
              rw [hst1] at hst2
              simpa [List.append_assoc] using hst2
            cases res <;> simpa [hins, hrec] using hfin

theorem ingest_recalls_shape (vid : Nat) (rs : List RawRecord) :
    ∀ st, ∃ l, (ingest_recalls st vid rs).2 =
      { st with recalls := st.recalls ++ l } := by
  induction rs with
  | nil =>
    intro st
    exact ⟨[], by simp [ingest_recalls]⟩
  | cons r rest ih =>
    intro st
    simp only [ingest_recalls]
    cases hn : normalize_recall vid r with
    | error e => exact ⟨[], by simp⟩
    | ok o =>
      cases o with
      | none => simpa using ih st
      | some c =>
        cases hins : recallInsert st c with
        | none => simpa [hins] using ih st
        | some st1 =>
          have hst1 : st1 = { st with recalls := st.recalls ++ [c] } := by
            unfold recallInsert at hins
            by_cases hc : (st.recalls.any fun x =>
                x.vehicle_id == c.vehicle_id && x.campaign_number == c.campaign_number) = true
            · rw [if_pos hc] at hins; cases hins
            · rw [if_neg hc] at hins; exact (Option.some.inj hins).symm
          obtain ⟨l, hl⟩ := ih st1
          refine ⟨c :: l, ?_⟩
          cases hrec : ingest_recalls st1 vid rest with
          | mk res st2 =>
            have hst2 : st2 = { st1 with recalls := st1.recalls ++ l } := by
              rw [hrec] at hl; exact hl
            have hfin : st2 = { st with recalls := st.recalls ++ (c :: l) } := by
              rw [hst1] at hst2
              simpa [List.append_assoc] using hst2
            cases res <;> simpa [hins, hrec] using hfin

theorem ingest_complaints_vehicles_eq (vid : Nat) (rs : List RawRecord) (st : Store) :
    (ingest_complaints st vid rs).2.vehicles = st.vehicles := by
  obtain ⟨l, h⟩ := ingest_complaints_shape vid rs st
  rw [h]

theorem ingest_complaints_recalls_eq (vid : Nat) (rs : List RawRecord) (st : Store) :
    (ingest_complaints st vid rs).2.recalls = st.recalls := by
  obtain ⟨l, h⟩ := ingest_complaints_shape vid rs st
  rw [h]

theorem ingest_recalls_vehicles_eq (vid : Nat) (rs : List RawRecord) (st : Store) :
    (ingest_recalls st vid rs).2.vehicles = st.vehicles := by
  obtain ⟨l, h⟩ := ingest_recalls_shape vid rs st
  rw [h]

theorem ingest_recalls_complaints_eq (vid : Nat) (rs : List RawRecord) (st : Store) :
    (ingest_recalls st vid rs).2.complaints = st.complaints := by
  obtain ⟨l, h⟩ := ingest_recalls_shape vid rs st
  rw [h]

theorem ingest_complaints_mono (vid : Nat) (rs : List RawRecord) (st : Store) :
    ∀ x ∈ st.complaints, x ∈ (ingest_complaints st vid rs).2.complaints := by
  obtain ⟨l, h⟩ := ingest_complaints_shape vid rs st
  rw [h]
  intro x hx
  exact List.mem_append_left l hx

theorem ingest_recalls_mono (vid : Nat) (rs : List RawRecord) (st : Store) :
    ∀ x ∈ st.recalls, x ∈ (ingest_recalls st vid rs).2.recalls := by
  obtain ⟨l, h⟩ := ingest_recalls_shape vid rs st
  rw [h]
  intro x hx
  exact List.mem_append_left l hx

theorem goc_found (st : Store) (mk md : String) (yr : Int) (v : VehicleRow)
    (hm : vehicleMatches st mk md yr = [v]) :
    get_or_create_vehicle st mk md yr = (.ok v.id, st) := by
  unfold get_or_create_vehicle vehicleQuery getOrCreateResume
  simp only [hm]

theorem goc_create (st : Store) (mk md : String) (yr : Int)
    (hm : vehicleMatches st mk md yr = [])
    (ha : (st.vehicles.any fun v =>
        v.make == pyUpper mk && v.model == pyUpper md && v.year == yr) = false) :
    get_or_create_vehicle st mk md yr =
      (.ok st.nextVehicleId,
       { st with nextVehicleId := st.nextVehicleId + 1,
                 vehicles := st.vehicles
                   ++ [⟨st.nextVehicleId, pyUpper mk, pyUpper md, yr⟩] }) := by
  unfold get_or_create_vehicle vehicleQuery getOrCreateResume vehicleInsert
  simp only [hm, ha, Bool.false_eq_true, if_false]

theorem goc_create_err (st : Store) (mk md : String) (yr : Int)
    (hm : vehicleMatches st mk md yr = [])
    (ha : (st.vehicles.any fun v =>
        v.make == pyUpper mk && v.model == pyUpper md && v.year == yr) = true) :
    get_or_create_vehicle st mk md yr = (.error .integrityError, st) := by
  unfold get_or_create_vehicle vehicleQuery getOrCreateResume vehicleInsert
  simp only [hm, ha, if_true]

theorem goc_multi (st : Store) (mk md : String) (yr : Int) (v v2 : VehicleRow)
    (t : List VehicleRow) (hm : vehicleMatches st mk md yr = v :: v2 :: t) :
    get_or_create_vehicle st mk md yr = (.error .multipleResultsFound, st) := by
  unfold get_or_create_vehicle vehicleQuery getOrCreateResume
  simp only [hm]

theorem get_or_create_vehicle_stable (st : Store) (mk md : String) (yr : Int)
    (s : Store)
    (h : s.vehicles = ((get_or_create_vehicle st mk md yr).2).vehicles) :
    get_or_create_vehicle s mk md yr =
      ((get_or_create_vehicle st mk md yr).1, s) := by
  cases hm : vehicleMatches st mk md yr with
  | nil =>
    by_cases ha : (st.vehicles.any fun v =>
        v.make == pyUpper mk && v.model == pyUpper md && v.year == yr) = true
    · rw [goc_create_err st mk md yr hm ha] at h ⊢
      have hms : vehicleMatches s mk md yr = [] := by
        unfold vehicleMatches
        rw [h]
        exact hm
      have has : (s.vehicles.any fun v =>
          v.make == pyUpper mk && v.model == pyUpper md && v.year == yr) = true := by
        rw [h]
        exact ha
      rw [goc_create_err s mk md yr hms has]
    · have ha' : (st.vehicles.any fun v =>
          v.make == pyUpper mk && v.model == pyUpper md && v.year == yr) = false :=
        Bool.not_eq_true _ ▸ eq_false_of_ne_true ha
      rw [goc_create st mk md yr hm ha'] at h ⊢
      have hms : vehicleMatches s mk md yr =
          [⟨st.nextVehicleId, pyUpper mk, pyUpper md, yr⟩] := by
        unfold vehicleMatches
        rw [h]
        simp only [List.filter_append]
        have h1 : vehicleMatches st mk md yr = [] := hm
        unfold vehicleMatches at h1
        rw [h1]
        simp
      rw [goc_found s mk md yr _ hms]
  | cons v tail =>
    cases tail with
    | nil =>
      rw [goc_found st mk md yr v hm] at h ⊢
      have hms : vehicleMatches s mk md yr = [v] := by
        unfold vehicleMatches
        rw [h]
        exact hm
      rw [goc_found s mk md yr v hms]
    | cons v2 t2 =>
      rw [goc_multi st mk md yr v v2 t2 hm] at h ⊢
      have hms : vehicleMatches s mk md yr = v :: v2 :: t2 := by
        unfold vehicleMatches
        rw [h]
        exact hm
      rw [goc_multi s mk md yr v v2 t2 hms]

theorem complaintInsert_none_iff (st : Store) (c : ComplaintRow) :
    complaintInsert st c = none ↔
      (st.complaints.any fun x => x.odi_number == c.odi_number) = true := by
  unfold complaintInsert
  by_cases hc : (st.complaints.any fun x => x.odi_number == c.odi_number) = true
  · simp [hc]
  · simp [hc]

theorem complaintInsert_some_eq (st : Store) (c : ComplaintRow) (st1 : Store)
    (h : complaintInsert st c = some st1) :
    st1 = { st with complaints := st.complaints ++ [c] } := by
  unfold complaintInsert at h
  by_cases hc : (st.complaints.any fun x => x.odi_number == c.odi_number) = true
  · rw [if_pos hc] at h; cases h
  · rw [if_neg hc] at h; exact (Option.some.inj h).symm

theorem recallInsert_none_iff (st : Store) (c : RecallRow) :
    recallInsert st c = none ↔
      (st.recalls.any fun x =>
        x.vehicle_id == c.vehicle_id && x.campaign_number == c.campaign_number) = true := by
  unfold recallInsert
  by_cases hc : (st.recalls.any fun x =>
      x.vehicle_id == c.vehicle_id && x.campaign_number == c.campaign_number) = true
  · simp [hc]
  · simp [hc]

theorem recallInsert_some_eq (st : Store) (c : RecallRow) (st1 : Store)
    (h : recallInsert st c = some st1) :
    st1 = { st with recalls := st.recalls ++ [c] } := by
  unfold recallInsert at h
  by_cases hc : (st.recalls.any fun x =>
      x.vehicle_id == c.vehicle_id && x.campaign_number == c.campaign_number) = true
  · rw [if_pos hc] at h; cases h
  · rw [if_neg hc] at h; exact (Option.some.inj h).symm

theorem ingest_complaints_cons_err (st : Store) (vid : Nat) (r : RawRecord)
    (rest : List RawRecord) (e : PyError)
    (hn : normalize_complaint vid r = .error e) :
    ingest_complaints st vid (r :: rest) = (.error e, st) := by
  simp only [ingest_complaints, hn]

theorem ingest_complaints_cons_skip (st : Store) (vid : Nat) (r : RawRecord)
    (rest : List RawRecord)
    (hn : normalize_complaint vid r = .ok none) :
    ingest_complaints st vid (r :: rest) = ingest_complaints st vid rest := by
  simp only [ingest_complaints, hn]

theorem ingest_complaints_cons_conflict (st : Store) (vid : Nat) (r : RawRecord)
    (rest : List RawRecord) (c : ComplaintRow)
    (hn : normalize_complaint vid r = .ok (some c))
    (hins : complaintInsert st c = none) :
    ingest_complaints st vid (r :: rest) = ingest_complaints st vid rest := by
  simp only [ingest_complaints, hn, hins]

theorem ingest_complaints_cons_insert_snd (st : Store) (vid : Nat) (r : RawRecord)
    (rest : List RawRecord) (c : ComplaintRow) (st1 : Store)
    (hn : normalize_complaint vid r = .ok (some c))
    (hins : complaintInsert st c = some st1) :
    (ingest_complaints st vid (r :: rest)).2 = (ingest_complaints st1 vid rest).2 := by
  simp only [ingest_complaints, hn, hins]
  cases hrec : ingest_complaints st1 vid rest with
  | mk res st2 => cases res <;> simp [hrec]

theorem ingest_complaints_cons_insert_fst (st : Store) (vid : Nat) (r : RawRecord)
    (rest : List RawRecord) (c : ComplaintRow) (st1 : Store)
    (hn : normalize_complaint vid r = .ok (some c))
    (hins : complaintInsert st c = some st1) :
    (ingest_complaints st vid (r :: rest)).1 =
      (match (ingest_complaints st1 vid rest).1 with
       | .ok n => (.ok (n + 1) : Except PyError Nat)
       | .error e => .error e) := by
  simp only [ingest_complaints, hn, hins]
  cases hrec : ingest_complaints st1 vid rest with
  | mk res st2 => cases res <;> simp [hrec]

theorem ingest_recalls_cons_err (st : Store) (vid : Nat) (r : RawRecord)
    (rest : List RawRecord) (e : PyError)
    (hn : normalize_recall vid r = .error e) :
    ingest_recalls st vid (r :: rest) = (.error e, st) := by
  simp only [ingest_recalls, hn]

theorem ingest_recalls_cons_skip (st : Store) (vid : Nat) (r : RawRecord)
    (rest : List RawRecord)
    (hn : normalize_recall vid r = .ok none) :
    ingest_recalls st vid (r :: rest) = ingest_recalls st vid rest := by
  simp only [ingest_recalls, hn]

theorem ingest_recalls_cons_conflict (st : Store) (vid : Nat) (r : RawRecord)
    (rest : List RawRecord) (c : RecallRow)
    (hn : normalize_recall vid r = .ok (some c))
    (hins : recallInsert st c = none) :
    ingest_recalls st vid (r :: rest) = ingest_recalls st vid rest := by
  simp only [ingest_recalls, hn, hins]

theorem ingest_recalls_cons_insert_snd (st : Store) (vid : Nat) (r : RawRecord)
    (rest : List RawRecord) (c : RecallRow) (st1 : Store)
    (hn : normalize_recall vid r = .ok (some c))
    (hins : recallInsert st c = some st1) :
    (ingest_recalls st vid (r :: rest)).2 = (ingest_recalls st1 vid rest).2 := by
  simp only [ingest_recalls, hn, hins]
  cases hrec : ingest_recalls st1 vid rest with
  | mk res st2 => cases res <;> simp [hrec]

theorem ingest_recalls_cons_insert_fst (st : Store) (vid : Nat) (r : RawRecord)
    (rest : List RawRecord) (c : RecallRow) (st1 : Store)
    (hn : normalize_recall vid r = .ok (some c))
    (hins : recallInsert st c = some st1) :
    (ingest_recalls st vid (r :: rest)).1 =
      (match (ingest_recalls st1 vid rest).1 with
       | .ok n => (.ok (n + 1) : Except PyError Nat)
       | .error e => .error e) := by
  simp only [ingest_recalls, hn, hins]
  cases hrec : ingest_recalls st1 vid rest with
  | mk res st2 => cases res <;> simp [hrec]

theorem ingest_complaints_replay (vid : Nat) (rs : List RawRecord) :
    ∀ st s, (∀ x ∈ ((ingest_complaints st vid rs).2).complaints, x ∈ s.complaints) →
      ingest_complaints s vid rs =
        ((match (ingest_complaints st vid rs).1 with
          | .ok _ => (.ok 0 : Except PyError Nat)
          | .error e => .error e), s) := by
  induction rs with
  | nil => intro st s _; rfl
  | cons r rest ih =>
    intro st s h
    cases hn : normalize_complaint vid r with
    | error e =>
      rw [ingest_complaints_cons_err s vid r rest e hn,
          ingest_complaints_cons_err st vid r rest e hn]
    | ok o =>
      cases o with
      | none =>
        rw [ingest_complaints_cons_skip st vid r rest hn] at h
        rw [ingest_complaints_cons_skip s vid r rest hn,
            ingest_complaints_cons_skip st vid r rest hn]
        exact ih st s h
      | some c =>
        cases hins : complaintInsert st c with
        | some st1 =>
          rw [ingest_complaints_cons_insert_snd st vid r rest c st1 hn hins] at h
          have hc_in_s : c ∈ s.complaints := by
            apply h
            apply ingest_complaints_mono vid rest st1
            rw [complaintInsert_some_eq st c st1 hins]
            simp
          have hinsS : complaintInsert s c = none := by
            rw [complaintInsert_none_iff]
            exact List.any_eq_true.mpr ⟨c, hc_in_s, by simp⟩
          rw [ingest_complaints_cons_conflict s vid r rest c hn hinsS]
          rw [ih st1 s h]
          rw [ingest_complaints_cons_insert_fst st vid r rest c st1 hn hins]
          cases hres : (ingest_complaints st1 vid rest).1 <;> rfl
        | none =>
          obtain ⟨x, hx_mem, hx_odi⟩ :=
            List.any_eq_true.mp ((complaintInsert_none_iff st c).mp hins)
          rw [ingest_complaints_cons_conflict st vid r rest c hn hins] at h
          have hx_in_s : x ∈ s.complaints :=
            h x (ingest_complaints_mono vid rest st x hx_mem)
          have hinsS : complaintInsert s c = none := by
            rw [complaintInsert_none_iff]
            exact List.any_eq_true.mpr ⟨x, hx_in_s, hx_odi⟩
          rw [ingest_complaints_cons_conflict s vid r rest c hn hinsS,
              ingest_complaints_cons_conflict st vid r rest c hn hins]
          exact ih st s h

theorem ingest_recalls_replay (vid : Nat) (rs : List RawRecord) :
    ∀ st s, (∀ x ∈ ((ingest_recalls st vid rs).2).recalls, x ∈ s.recalls) →
      ingest_recalls s vid rs =
        ((match (ingest_recalls st vid rs).1 with
          | .ok _ => (.ok 0 : Except PyError Nat)
          | .error e => .error e), s) := by
  induction rs with
  | nil => intro st s _; rfl
  | cons r rest ih =>
    intro st s h
    cases hn : normalize_recall vid r with
    | error e =>
      rw [ingest_recalls_cons_err s vid r rest e hn,
          ingest_recalls_cons_err st vid r rest e hn]
    | ok o =>
      cases o with
      | none =>
        rw [ingest_recalls_cons_skip st vid r rest hn] at h
        rw [ingest_recalls_cons_skip s vid r rest hn,
            ingest_recalls_cons_skip st vid r rest hn]
        exact ih st s h
      | some c =>
        cases hins : recallInsert st c with
        | some st1 =>
          rw [ingest_recalls_cons_insert_snd st vid r rest c st1 hn hins] at h
          have hc_in_s : c ∈ s.recalls := by
            apply h
            apply ingest_recalls_mono vid rest st1
            rw [recallInsert_some_eq st c st1 hins]
            simp
          have hinsS : recallInsert s c = none := by
            rw [recallInsert_none_iff]
            exact List.any_eq_true.mpr ⟨c, hc_in_s, by simp⟩
          rw [ingest_recalls_cons_conflict s vid r rest c hn hinsS]
          rw [ih st1 s h]
          rw [ingest_recalls_cons_insert_fst st vid r rest c st1 hn hins]
          cases hres : (ingest_recalls st1 vid rest).1 <;> rfl
        | none =>
          obtain ⟨x, hx_mem, hx_odi⟩ :=
            List.any_eq_true.mp ((recallInsert_none_iff st c).mp hins)
          rw [ingest_recalls_cons_conflict st vid r rest c hn hins] at h
          have hx_in_s : x ∈ s.recalls :=
            h x (ingest_recalls_mono vid rest st x hx_mem)
          have hinsS : recallInsert s c = none := by
            rw [recallInsert_none_iff]
            exact List.any_eq_true.mpr ⟨x, hx_in_s, hx_odi⟩
          rw [ingest_recalls_cons_conflict s vid r rest c hn hinsS,
              ingest_recalls_cons_conflict st vid r rest c hn hins]
          exact ih st s h

theorem ingest_complaints_replay_ok (vid : Nat) (rs : List RawRecord)
    (st s : Store) (n : Nat)
    (h1 : (ingest_complaints st vid rs).1 = .ok n)
    (h : ∀ x ∈ ((ingest_complaints st vid rs).2).complaints, x ∈ s.complaints) :
    ingest_complaints s vid rs = (.ok 0, s) := by
  have hrep := ingest_complaints_replay vid rs st s h
  rw [h1] at hrep
  simpa using hrep

theorem ingest_complaints_replay_err (vid : Nat) (rs : List RawRecord)
    (st s : Store) (e : PyError)
    (h1 : (ingest_complaints st vid rs).1 = .error e)
    (h : ∀ x ∈ ((ingest_complaints st vid rs).2).complaints, x ∈ s.complaints) :
    ingest_complaints s vid rs = (.error e, s) := by
  have hrep := ingest_complaints_replay vid rs st s h
  rw [h1] at hrep
  simpa using hrep

theorem ingest_recalls_replay_ok (vid : Nat) (rs : List RawRecord)
    (st s : Store) (n : Nat)
    (h1 : (ingest_recalls st vid rs).1 = .ok n)
    (h : ∀ x ∈ ((ingest_recalls st vid rs).2).recalls, x ∈ s.recalls) :
    ingest_recalls s vid rs = (.ok 0, s) := by
  have hrep := ingest_recalls_replay vid rs st s h
  rw [h1] at hrep
  simpa using hrep

theorem ingest_recalls_replay_err (vid : Nat) (rs : List RawRecord)
    (st s : Store) (e : PyError)
    (h1 : (ingest_recalls st vid rs).1 = .error e)
    (h : ∀ x ∈ ((ingest_recalls st vid rs).2).recalls, x ∈ s.recalls) :
    ingest_recalls s vid rs = (.error e, s) := by
  have hrep := ingest_recalls_replay vid rs st s h
  rw [h1] at hrep
  simpa using hrep

theorem ingest_vehicle_rerun (mk md : String) (yr : Int) (fC fR : Svc) (st0 : Store) :
    ingest_vehicle mk md yr fC fR (ingest_vehicle mk md yr fC fR st0).2
      = ((match (ingest_vehicle mk md yr fC fR st0).1 with
          | .ok _ => (.ok (0, 0) : Except PyError (Nat × Nat))
          | .error e => .error e),
         (ingest_vehicle mk md yr fC fR st0).2) := by
  cases hgoc : get_or_create_vehicle st0 mk md yr with
  | mk rgoc st1 =>
    cases rgoc with
    | error e =>
      have hrun1 : ingest_vehicle mk md yr fC fR st0 = (.error e, st1) := by
        unfold ingest_vehicle
        simp only [hgoc]
      rw [hrun1]
      have hst : get_or_create_vehicle st1 mk md yr = (.error e, st1) := by
        have hs := get_or_create_vehicle_stable st0 mk md yr st1 (by rw [hgoc])
        rw [hgoc] at hs
        exact hs
      unfold ingest_vehicle
      simp only [hst]
    | ok vid =>
      cases hfc : fC mk md yr with
      | error e =>
        have hrun1 : ingest_vehicle mk md yr fC fR st0 = (.error e, st1) := by
          unfold ingest_vehicle
          simp only [hgoc, hfc]
        rw [hrun1]
        have hst : get_or_create_vehicle st1 mk md yr = (.ok vid, st1) := by
          have hs := get_or_create_vehicle_stable st0 mk md yr st1 (by rw [hgoc])
          rw [hgoc] at hs
          exact hs
        unfold ingest_vehicle
        simp only [hst, hfc]
      | ok crs =>
        cases hic : ingest_complaints st1 vid crs with
        | mk rC st2 =>
          have hveh2 : st2.vehicles = st1.vehicles := by
            have hv := ingest_complaints_vehicles_eq vid crs st1
            rw [hic] at hv
            exact hv
          cases rC with
          | error e =>
            have hrun1 : ingest_vehicle mk md yr fC fR st0 = (.error e, st2) := by
              unfold ingest_vehicle
              simp only [hgoc, hfc, hic]
            rw [hrun1]
            have hst : get_or_create_vehicle st2 mk md yr = (.ok vid, st2) := by
              have hs := get_or_create_vehicle_stable st0 mk md yr st2
                (by rw [hgoc]; exact hveh2)
              rw [hgoc] at hs
              exact hs
            have hrep : ingest_complaints st2 vid crs = (.error e, st2) := by
              apply ingest_complaints_replay_err vid crs st1 st2 e
              · rw [hic]
              · intro x hx
                rw [hic] at hx
                exact hx
            unfold ingest_vehicle
            simp only [hst, hfc, hrep]
          | ok nC =>
            cases hfr : fR mk md yr with
            | error e =>
              have hrun1 : ingest_vehicle mk md yr fC fR st0 = (.error e, st2) := by
                unfold ingest_vehicle
                simp only [hgoc, hfc, hic, hfr]
              rw [hrun1]
              have hst : get_or_create_vehicle st2 mk md yr = (.ok vid, st2) := by
                have hs := get_or_create_vehicle_stable st0 mk md yr st2
                  (by rw [hgoc]; exact hveh2)
                rw [hgoc] at hs
                exact hs
              have hrep : ingest_complaints st2 vid crs = (.ok 0, st2) := by
                apply ingest_complaints_replay_ok vid crs st1 st2 nC
                · rw [hic]
                · intro x hx
                  rw [hic] at hx
                  exact hx
              unfold ingest_vehicle
              simp only [hst, hfc, hrep, hfr]
            | ok rrs =>
              cases hir : ingest_recalls st2 vid rrs with
              | mk rR st3 =>
                have hveh3 : st3.vehicles = st2.vehicles := by
                  have hv := ingest_recalls_vehicles_eq vid rrs st2
                  rw [hir] at hv
                  exact hv
                have hcomp3 : st3.complaints = st2.complaints := by
                  have hv := ingest_recalls_complaints_eq vid rrs st2
                  rw [hir] at hv
                  exact hv
                have hst : get_or_create_vehicle st3 mk md yr = (.ok vid, st3) := by
                  have hs := get_or_create_vehicle_stable st0 mk md yr st3
                    (by rw [hgoc]; rw [hveh3]; exact hveh2)
                  rw [hgoc] at hs
                  exact hs
                have hrep : ingest_complaints st3 vid crs = (.ok 0, st3) := by
                  apply ingest_complaints_replay_ok vid crs st1 st3 nC
                  · rw [hic]
                  · intro x hx
                    rw [hic] at hx
                    rw [hcomp3]
                    exact hx
                cases rR with
                | error e =>
                  have hrun1 : ingest_vehicle mk md yr fC fR st0 = (.error e, st3) := by
                    unfold ingest_vehicle
                    simp only [hgoc, hfc, hic, hfr, hir]
                  rw [hrun1]
                  have hrrep : ingest_recalls st3 vid rrs = (.error e, st3) := by
                    apply ingest_recalls_replay_err vid rrs st2 st3 e
                    · rw [hir]
                    · intro x hx
                      rw [hir] at hx
                      exact hx
                  unfold ingest_vehicle
                  simp only [hst, hfc, hrep, hfr, hrrep]
                | ok nR =>
                  have hrun1 : ingest_vehicle mk md yr fC fR st0 = (.ok (nC, nR), st3) := by
                    unfold ingest_vehicle
                    simp only [hgoc, hfc, hic, hfr, hir]
                  rw [hrun1]
                  have hrrep : ingest_recalls st3 vid rrs = (.ok 0, st3) := by
                    apply ingest_recalls_replay_ok vid rrs st2 st3 nR
                    · rw [hir]
                    · intro x hx
                      rw [hir] at hx
                      exact hx
                  unfold ingest_vehicle
                  simp only [hst, hfc, hrep, hfr, hrrep]

/-- C1: for every (make, model, year), every fixed upstream complaints and
recalls endpoint, and every starting store, running `ingest_vehicle` twice
in sequence leaves the cache in the same final state as running it once;
and whenever the first invocation returns successfully, the second
invocation returns `(0, 0)`: zero new complaint insertions and zero new
recall insertions. -/
theorem ingest_vehicle_idempotent (mk md : String) (yr : Int) (fC fR : Svc)
    (st0 : Store) :
    (ingest_vehicle mk md yr fC fR (ingest_vehicle mk md yr fC fR st0).2).2
      = (ingest_vehicle mk md yr fC fR st0).2
    ∧ (∀ p, (ingest_vehicle mk md yr fC fR st0).1 = .ok p →
        (ingest_vehicle mk md yr fC fR (ingest_vehicle mk md yr fC fR st0).2).1
          = .ok (0, 0)) := by
  constructor
  · rw [ingest_vehicle_rerun]
  · intro p hp
    rw [ingest_vehicle_rerun]
    simp [hp]

/-- C1 witness: on the concrete fixture the first call inserts two
complaints and one recall, and the repeat call reports zero insertions. -/
theorem ingest_vehicle_idempotent_witness :
    (ingest_vehicle "Honda" "Accord" 2021 wFc wFr
       (ingest_vehicle "Honda" "Accord" 2021 wFc wFr emptyStore).2).1 = .ok (0, 0) :=
  (ingest_vehicle_idempotent "Honda" "Accord" 2021 wFc wFr emptyStore).2 (2, 1) rfl

theorem ingest_complaints_preserves_inv (vid : Nat) (rs : List RawRecord) :
    ∀ st, StoreInv st → StoreInv (ingest_complaints st vid rs).2 := by
  induction rs with
  | nil => intro st h; simpa [ingest_complaints] using h
  | cons r rest ih =>
    intro st h
    cases hn : normalize_complaint vid r with
    | error e => rw [ingest_complaints_cons_err st vid r rest e hn]; exact h
    | ok o =>
      cases o with
      | none => rw [ingest_complaints_cons_skip st vid r rest hn]; exact ih st h
      | some c =>
        cases hins : complaintInsert st c with
        | none =>
          rw [ingest_complaints_cons_conflict st vid r rest c hn hins]
          exact ih st h
        | some st1 =>
          rw [ingest_complaints_cons_insert_snd st vid r rest c st1 hn hins]
          apply ih st1
          have hst1 := complaintInsert_some_eq st c st1 hins
          have hnodup : (st.complaints.any fun x =>
              x.odi_number == c.odi_number) = false := by
            by_cases hb : (st.complaints.any fun x =>
                x.odi_number == c.odi_number) = true
            · have hcontra := (complaintInsert_none_iff st c).mpr hb
              rw [hcontra] at hins
              cases hins
            · exact eq_false_of_ne_true hb
          rw [hst1]
          obtain ⟨hv, hnorm, hcu, hru⟩ := h
          refine ⟨hv, hnorm, ?_, hru⟩
          unfold ComplaintIdentityUnique at hcu ⊢
          rw [List.pairwise_append]
          refine ⟨hcu, by simp, ?_⟩
          intro a ha b hb
          rw [List.mem_singleton] at hb
          subst hb
          intro heq
          have hany : (st.complaints.any fun x =>
              x.odi_number == b.odi_number) = true :=
            List.any_eq_true.mpr ⟨a, ha, by simp [heq]⟩
          rw [hany] at hnodup
          cases hnodup

theorem ingest_recalls_preserves_inv (vid : Nat) (rs : List RawRecord) :
    ∀ st, StoreInv st → StoreInv (ingest_recalls st vid rs).2 := by
  induction rs with
  | nil => intro st h; simpa [ingest_recalls] using h
  | cons r rest ih =>
    intro st h
    cases hn : normalize_recall vid r with
    | error e => rw [ingest_recalls_cons_err st vid r rest e hn]; exact h
    | ok o =>
      cases o with
      | none => rw [ingest_recalls_cons_skip st vid r rest hn]; exact ih st h
      | some c =>
        cases hins : recallInsert st c with
        | none =>
          rw [ingest_recalls_cons_conflict st vid r rest c hn hins]
          exact ih st h
        | some st1 =>
          rw [ingest_recalls_cons_insert_snd st vid r rest c st1 hn hins]
          apply ih st1
          have hst1 := recallInsert_some_eq st c st1 hins
          have hnodup : (st.recalls.any fun x =>
              x.vehicle_id == c.vehicle_id
              && x.campaign_number == c.campaign_number) = false := by
            by_cases hb : (st.recalls.any fun x =>
                x.vehicle_id == c.vehicle_id
                && x.campaign_number == c.campaign_number) = true
            · have hcontra := (recallInsert_none_iff st c).mpr hb
              rw [hcontra] at hins
              cases hins
            · exact eq_false_of_ne_true hb
          rw [hst1]
          obtain ⟨hv, hnorm, hcu, hru⟩ := h
          refine ⟨hv, hnorm, hcu, ?_⟩
          unfold RecallIdentityUnique at hru ⊢
          rw [List.pairwise_append]
          refine ⟨hru, by simp, ?_⟩
          intro a ha b hb
          rw [List.mem_singleton] at hb
          subst hb
          rintro ⟨h1, h2⟩
          have hany : (st.recalls.any fun x =>
              x.vehicle_id == b.vehicle_id
              && x.campaign_number == b.campaign_number) = true :=
            List.any_eq_true.mpr ⟨a, ha, by simp [h1, h2]⟩
          rw [hany] at hnodup
          cases hnodup

theorem goc_preserves_inv (st : Store) (mk md : String) (yr : Int)
    (h : StoreInv st) : StoreInv (get_or_create_vehicle st mk md yr).2 := by
  cases hm : vehicleMatches st mk md yr with
  | cons v tail =>
    cases tail with
    | nil => rw [goc_found st mk md yr v hm]; exact h
    | cons v2 t2 => rw [goc_multi st mk md yr v v2 t2 hm]; exact h
  | nil =>
    by_cases ha : (st.vehicles.any fun v =>
        v.make == pyUpper mk && v.model == pyUpper md && v.year == yr) = true
    · rw [goc_create_err st mk md yr hm ha]; exact h
    · rw [goc_create st mk md yr hm (eq_false_of_ne_true ha)]
      obtain ⟨hv, hnorm, hcu, hru⟩ := h
      refine ⟨?_, ?_, hcu, hru⟩
      · rw [List.pairwise_append]
        refine ⟨hv, by simp, ?_⟩
        intro a hamem b hbmem
        rw [List.mem_singleton] at hbmem
        subst hbmem
        rintro ⟨h1, h2, h3⟩
        apply ha
        exact List.any_eq_true.mpr ⟨a, hamem, by simp [h1, h2, h3]⟩
      · intro v hv2
        rcases List.mem_append.mp hv2 with hv2 | hv2
        · exact hnorm v hv2
        · rw [List.mem_singleton] at hv2
          subst hv2
          exact ⟨pyUpper_idem mk, pyUpper_idem md⟩

theorem ingest_vehicle_preserves_inv (mk md : String) (yr : Int)
    (fC fR : Svc) (st : Store) (h : StoreInv st) :
    StoreInv (ingest_vehicle mk md yr fC fR st).2 := by
  cases hgoc : get_or_create_vehicle st mk md yr with
  | mk rgoc st1 =>
    have h1 : StoreInv st1 := by
      have hp := goc_preserves_inv st mk md yr h
      rw [hgoc] at hp
      exact hp
    cases rgoc with
    | error e =>
      have hrun : ingest_vehicle mk md yr fC fR st = (.error e, st1) := by
        unfold ingest_vehicle
        simp only [hgoc]
      rw [hrun]
      exact h1
    | ok vid =>
      cases hfc : fC mk md yr with
      | error e =>
        have hrun : ingest_vehicle mk md yr fC fR st = (.error e, st1) := by
          unfold ingest_vehicle
          simp only [hgoc, hfc]
        rw [hrun]
        exact h1
      | ok crs =>
        cases hic : ingest_complaints st1 vid crs with
        | mk rC st2 =>
          have h2 : StoreInv st2 := by
            have hp := ingest_complaints_preserves_inv vid crs st1 h1
            rw [hic] at hp
            exact hp
          cases rC with
          | error e =>
            have hrun : ingest_vehicle mk md yr fC fR st = (.error e, st2) := by
              unfold ingest_vehicle
              simp only [hgoc, hfc, hic]
            rw [hrun]
            exact h2
          | ok nC =>
            cases hfr : fR mk md yr with
            | error e =>
              have hrun : ingest_vehicle mk md yr fC fR st = (.error e, st2) := by
                unfold ingest_vehicle
                simp only [hgoc, hfc, hic, hfr]
              rw [hrun]
              exact h2
            | ok rrs =>
              cases hir : ingest_recalls st2 vid rrs with
              | mk rR st3 =>
                have h3 : StoreInv st3 := by
                  have hp := ingest_recalls_preserves_inv vid rrs st2 h2
                  rw [hir] at hp
                  exact hp
                cases rR with
                | error e =>
                  have hrun : ingest_vehicle mk md yr fC fR st = (.error e, st3) := by
                    unfold ingest_vehicle
                    simp only [hgoc, hfc, hic, hfr, hir]
                  rw [hrun]
                  exact h3
                | ok nR =>
                  have hrun : ingest_vehicle mk md yr fC fR st
                      = (.ok (nC, nR), st3) := by
                    unfold ingest_vehicle
                    simp only [hgoc, hfc, hic, hfr, hir]
                  rw [hrun]
                  exact h3

theorem reachable_store_inv (st : Store) (h : ReachableStore st) : StoreInv st := by
  induction h with
  | init =>
    exact ⟨List.Pairwise.nil, by simp [emptyStore], List.Pairwise.nil,
           List.Pairwise.nil⟩
  | step st mk md yr fC fR _ ih =>
    exact ingest_vehicle_preserves_inv mk md yr fC fR st ih

/-- C2: in every cache state reachable by any sequence of ingestion
operations from a fresh database, no two Vehicle rows share the same
(uppercased make, uppercased model, year) triple, no two Complaint rows
anywhere in the store share the same `odi_number`, and no two Recall rows
owned by the same vehicle share the same `campaign_number`. -/
theorem reachable_store_identity_unique (st : Store) (h : ReachableStore st) :
    VehicleIdentityUnique st ∧ ComplaintIdentityUnique st
    ∧ RecallIdentityUnique st := by
  obtain ⟨hv, hnorm, hcu, hru⟩ := reachable_store_inv st h
  refine ⟨?_, hcu, hru⟩
  unfold VehicleIdentityUnique
  refine List.Pairwise.imp_of_mem ?_ hv
  intro a b hamem hbmem hR
  rintro ⟨h1, h2, h3⟩
  obtain ⟨ham, hamo⟩ := hnorm a hamem
  obtain ⟨hbm, hbmo⟩ := hnorm b hbmem
  refine hR ⟨?_, ?_, h3⟩
  · rw [← ham, ← hbm]; exact h1
  · rw [← hamo, ← hbmo]; exact h2

/-- C2 witness: the store left by one concrete ingestion from a fresh
database satisfies all three uniqueness invariants. -/
theorem reachable_store_identity_unique_witness :
    VehicleIdentityUnique (ingest_vehicle "Honda" "Accord" 2021 wFc wFr emptyStore).2
    ∧ ComplaintIdentityUnique (ingest_vehicle "Honda" "Accord" 2021 wFc wFr emptyStore).2
    ∧ RecallIdentityUnique (ingest_vehicle "Honda" "Accord" 2021 wFc wFr emptyStore).2 :=
  reachable_store_identity_unique _
    (ReachableStore.step emptyStore "Honda" "Accord" 2021 wFc wFr ReachableStore.init)
